import Mathlib

set_option maxHeartbeats 1000000

/-!
Shallow embedding of the gir code-emission stage (src/codegen/general.rs):
the conditional-compilation guard engine, the import aggregator, the wrapper
declaration selectors and the attribute formatting helpers.

Writer output (`w: &mut dyn Write`) is modelled as the list of lines written,
one list element per `writeln!` call (the payload string, newline implicit).
Functions that can hit an `unwrap` on malformed metadata (a contract
violation, which panics in Rust) return `Option`, with `none` standing for
the abort.
-/

/-- Modelled from the spec: `Version` (version.rs, not under src/) is an
ordered triple (major, minor, micro) with a total order. -/
structure Version where
  major : Nat
  minor : Nat
  micro : Nat
deriving DecidableEq, Repr

instance : Inhabited Version := ⟨⟨0, 0, 0⟩⟩

/-- Modelled from the spec: the derived lexicographic strict order on the
`Version` triple (version.rs, not under src/). -/
def Version.ltB (a b : Version) : Bool :=
  decide (a.major < b.major) ||
    (decide (a.major = b.major) &&
      (decide (a.minor < b.minor) ||
        (decide (a.minor = b.minor) && decide (a.micro < b.micro))))

/-- Modelled from the spec: `Version::to_feature` (version.rs, not under
src/), the feature-name rendering of a version used in guard predicates. -/
def Version.to_feature (v : Version) : String :=
  match v.minor, v.micro with
  | 0, 0 => "v" ++ toString v.major
  | _, 0 => "v" ++ toString v.major ++ "_" ++ toString v.minor
  | _, _ => "v" ++ toString v.major ++ "_" ++ toString v.minor ++ "_" ++ toString v.micro

/-- Modelled from the spec: `Version::to_cfg` (version.rs, not under src/),
rendering the minimum-version feature predicate; namespace-qualified guards
prefix the feature name with the owning namespace's crate identifier. -/
def Version.to_cfg (v : Version) (ns : Option String) : String :=
  match ns with
  | none => "feature = \"" ++ v.to_feature ++ "\""
  | some n => "feature = \"" ++ n ++ "_" ++ v.to_feature ++ "\""

/-- Modelled from the spec: the human-readable display form of a `Version`
(version.rs, not under src/), used in deprecation markers. -/
def Version.display (v : Version) : String :=
  match v.micro with
  | 0 => toString v.major ++ "." ++ toString v.minor
  | _ => toString v.major ++ "." ++ toString v.minor ++ "." ++ toString v.micro

/-- Modelled from the spec: `Version::if_stricter_than` (version.rs, not
under src/): the declared bound is kept only when it is stricter than the
caller-supplied outer bound, otherwise it collapses to none because the
outer guard already covers it. -/
def Version.if_stricter_than (version other : Option Version) : Option Version :=
  match version with
  | none => none
  | some v =>
    match other with
    | none => some v
    | some o => if v.ltB o || decide (v = o) then none else some v

/-- Modelled from the spec: character order underlying the lexical string
order of the std `BTreeMap` and of symbol sorting (std Ord, not under src/). -/
def charLtB (a b : Char) : Bool := decide (a < b)

/-- Modelled from the spec: lexicographic order on sequences (std derived
Ord, not under src/); a strict prefix is smaller. -/
def listLexB {α : Type} (lt : α → α → Bool) [DecidableEq α] : List α → List α → Bool
  | [], [] => false
  | [], _ :: _ => true
  | _ :: _, [] => false
  | a :: as, b :: bs => lt a b || (decide (a = b) && listLexB lt as bs)

/-- Lexical order on strings (std Ord for str, not under src/). -/
def strLtB (s t : String) : Bool := listLexB charLtB s.data t.data

/-- Modelled from the spec: order on optional values (std derived Ord,
none smaller than some). -/
def optLtB {α : Type} (lt : α → α → Bool) : Option α → Option α → Bool
  | none, none => false
  | none, some _ => true
  | some _, none => false
  | some a, some b => lt a b

/-- Modelled from the spec: `CompilationScope` / `ImportConditions`
(analysis/imports.rs, not under src/): a set of feature constraint strings
plus an optional version lower bound. -/
structure ImportConditions where
  version : Option Version
  constraints : List String
deriving DecidableEq, Repr

/-- Modelled from the spec: the derived order on `ImportConditions`
(version first, then constraints), used by the grouping BTreeMap. -/
def condLtB (a b : ImportConditions) : Bool :=
  optLtB Version.ltB a.version b.version ||
    (decide (a.version = b.version) && listLexB strLtB a.constraints b.constraints)

/-- The grouping key of the import aggregator: (crate name, optional scope). -/
abbrev GroupKey := String × Option ImportConditions

/-- Modelled from the spec: the derived order on grouping keys
(lexical by namespace, then by scope). -/
def keyLtB (a b : GroupKey) : Bool :=
  strLtB a.1 b.1 || (decide (a.1 = b.1) && optLtB condLtB a.2 b.2)

/-- Modelled from the spec: a reference into the collaborator-owned type
table (library.rs, not under src/). -/
structure TypeId where
  ns_id : Nat
  id : Nat
deriving DecidableEq, Repr

/-- Modelled from the spec: tri-state inclusion status of an ancestor entry
(active / ignored / unspecified). -/
inductive GStatus where
  | generate
  | manual
  | ignore
deriving DecidableEq, Repr

/-- Whether the entry is ignored (`GStatus::ignored`, not under src/). -/
def GStatus.ignored : GStatus → Bool
  | .ignore => true
  | _ => false

/-- Modelled from the spec: `StatusedTypeId` (analysis/general.rs, not under
src/): a type reference plus name and inclusion status. -/
structure StatusedTypeId where
  type_id : TypeId
  name : String
  status : GStatus
deriving DecidableEq, Repr

/-- Modelled from the spec: the slice of the library type table consulted by
the emitter (library.rs, not under src/): classes carry optional ref/unref
function names and a foreign c type; interfaces are distinguished; all other
kinds are irrelevant here. -/
inductive LibType where
  | Class (ref_fn : Option String) (unref_fn : Option String) (c_type : String)
  | Interface
  | Other
deriving DecidableEq, Repr

/-- Whether a library type is a class. -/
def LibType.isClass : LibType → Bool
  | .Class _ _ _ => true
  | _ => false

/-- Whether a library type is an interface. -/
def LibType.isInterface : LibType → Bool
  | .Interface => true
  | _ => false

/-- Modelled from the spec: a namespace-table entry (namespace id to
crate-like identifier), from the namespace table collaborator. -/
structure Namespace where
  crate_name : String
deriving DecidableEq, Repr

/-- The id of the main namespace being generated (`namespaces::MAIN`,
not under src/). -/
def namespaces.MAIN : Nat := 0

/-- Modelled from the spec: the read-only collaborator interfaces consumed by
the emitter (Env, Config, Library — env.rs / config / library.rs, not under
src/): minimum-required-version policy lookup per namespace id, the namespace
table, the main sys crate name, per-type sys crate imports, the type table,
and the glib type-name qualifier. -/
structure Env where
  min_required_version : Option Nat → Option Version
  namespaces : Nat → Namespace
  main_sys_crate_name : String
  sys_crate_import : TypeId → String
  library : TypeId → LibType
  use_glib_type : String → String

/-- Modelled from the spec: `Env::is_too_low_version` (env.rs, not under
src/): true when the version is present and at or below the namespace's
minimum-required baseline, i.e. unconditionally reachable. -/
def Env.is_too_low_version (env : Env) (ns_id : Option Nat) (version : Option Version) : Bool :=
  match version, env.min_required_version ns_id with
  | some v, some to_compare_v => v.ltB to_compare_v || decide (v = to_compare_v)
  | _, _ => false

/-- Modelled from the spec: `TraitInfo` for the copy function of a boxed
type (analysis/special_functions.rs, not under src/): the foreign symbol
name and whether its first parameter is declared mutable. -/
structure TraitInfo where
  glib_name : String
  first_parameter_mut : Bool
deriving DecidableEq, Repr

/-- Modelled from the spec: a derive-list entry (config/derives.rs, not
under src/): trait names plus an optional guard condition. -/
structure Derive where
  names : List String
  cfg_condition : Option String
deriving DecidableEq, Repr

/-- Modelled from the spec: the visibility marker, rendered via Display
(codegen::Visibility, not under src/). -/
structure Visibility where
  render : String
deriving DecidableEq, Repr

/-- Modelled from the spec: `tabs` (writer/primitives.rs, not under src/),
the fixed tab-based indentation prefix. -/
def tabs (n : Nat) : String := String.mk (List.replicate n '\t')

/- ===== Attribute formatting helpers and the version predicate engine,
   embedded from src/codegen/general.rs ===== -/

/-- Embeds `cfg_condition_string_no_doc` (general.rs): the compile-guard
form of a cfg condition. -/
def cfg_condition_string_no_doc (cfg_condition : Option String) (commented : Bool) (indent : Nat) : Option String :=
  cfg_condition.map fun cfg =>
    tabs indent ++ (if commented then "//" else "") ++ "#[cfg(any(" ++ cfg ++ ", feature = \"dox\"))]"

/-- Embeds `cfg_condition_string_doc` (general.rs): the documentation twin
of a cfg condition. -/
def cfg_condition_string_doc (cfg_condition : Option String) (commented : Bool) (indent : Nat) : Option String :=
  cfg_condition.map fun cfg =>
    tabs indent ++ (if commented then "//" else "") ++ "#[cfg_attr(feature = \"dox\", doc(cfg(" ++ cfg ++ ")))]"

/-- Embeds `cfg_condition_string` (general.rs): compile guard followed by its
documentation twin, joined by a newline inside one written line. -/
def cfg_condition_string (cfg_condition : Option String) (commented : Bool) (indent : Nat) : Option String :=
  cfg_condition.map fun _ =>
    (cfg_condition_string_no_doc cfg_condition commented indent).get! ++ "\n" ++
      (cfg_condition_string_doc cfg_condition commented indent).get!

/-- Embeds `version_condition_string` (general.rs): resolves whether a
version guard is needed (version present and strictly newer than the
namespace's minimum-required baseline; an absent baseline always guards)
and renders the paired guard. -/
def version_condition_string (env : Env) (ns_id : Option Nat) (version : Option Version) (commented : Bool) (indent : Nat) : Option String :=
  let to_compare_with := env.min_required_version ns_id
  let should_generate :=
    match version, to_compare_with with
    | some v, some to_compare_v => to_compare_v.ltB v
    | some _, _ => true
    | _, _ => false
  if should_generate then
    let namespace_name := ns_id.bind fun ns =>
      if ns = namespaces.MAIN then none else some (env.namespaces ns).crate_name
    cfg_condition_string (some (version.get!.to_cfg namespace_name)) commented indent
  else
    none

/-- Embeds `version_condition` (general.rs) as the lines it writes. -/
def version_condition (env : Env) (ns_id : Option Nat) (version : Option Version) (commented : Bool) (indent : Nat) : List String :=
  (version_condition_string env ns_id version commented indent).toList

/-- Embeds `not_version_condition_no_dox` (general.rs): the complement
guard, emitted whenever a version is present. -/
def not_version_condition_no_dox (env : Env) (ns_id : Option Nat) (version : Option Version) (commented : Bool) (indent : Nat) : List String :=
  match version with
  | none => []
  | some v =>
    let namespace_name := ns_id.bind fun ns =>
      if ns = namespaces.MAIN then none else some (env.namespaces ns).crate_name
    [tabs indent ++ (if commented then "//" else "") ++
      "#[cfg(not(any(" ++ v.to_cfg namespace_name ++ ", feature = \"dox\")))]"]

/-- Embeds `cfg_deprecated_string` (general.rs): the deprecation marker,
unguarded when the deprecation version is already reachable under the
baseline, otherwise wrapped in a cfg_attr guard. -/
def cfg_deprecated_string (env : Env) (type_tid : Option TypeId) (deprecated : Option Version) (commented : Bool) (indent : Nat) : Option String :=
  let comment := if commented then "//" else ""
  deprecated.map fun v =>
    if env.is_too_low_version (type_tid.map TypeId.ns_id) (some v) then
      tabs indent ++ comment ++ "#[deprecated = \"Since " ++ v.display ++ "\"]"
    else
      tabs indent ++ comment ++ "#[cfg_attr(" ++ v.to_cfg none ++ ", deprecated = \"Since " ++ v.display ++ "\")]"

/-- Embeds `derives` (general.rs): one attribute line per derive entry. -/
def derives (ds : List Derive) (indent : Nat) : List String :=
  ds.map fun derive =>
    tabs indent ++
      (match derive.cfg_condition with
       | some condition => "#[cfg_attr(" ++ condition ++ ", derive(" ++ String.intercalate ", " derive.names ++ "))]"
       | none => "#[derive(" ++ String.intercalate ", " derive.names ++ ")]")

/-- Embeds `doc_alias` (general.rs) as the single line it writes. -/
def doc_alias (name : String) ( comment_prefix : String) (indent : Nat) : List String :=
  [tabs indent ++ comment_prefix ++ "#[doc(alias = \"" ++ name ++ "\")]"]

/-- Embeds `escape_string` (general.rs): prefix every double quote and
backslash with a backslash, pushing characters onto an accumulator. -/
def escape_string (s : String) : String :=
  s.data.foldl
    (fun es c => if c = '\"' || c = '\\' then (es.push '\\').push c else es.push c)
    ""

/- ===== Wrapper declaration selectors, embedded from general.rs ===== -/

/-- Embeds `format_parent_name` (general.rs): qualify a parent name with its
crate unless it lives in the main namespace. -/
def format_parent_name (env : Env) (p : StatusedTypeId) : String :=
  if p.type_id.ns_id = namespaces.MAIN then p.name
  else (env.namespaces p.type_id.ns_id).crate_name ++ "::" ++ p.name

/-- Embeds the `find_map` over parents inside `define_fundamental_type`
(general.rs): take the first parent whose library type is a class and unwrap
its ref/unref (a missing ref or unref on that parent panics, and exhausting
the list makes the outer unwrap panic; both aborts are `none` here).
Returns (ref_fn, unref_fn, ptr cast expression, ffi crate name). -/
def find_ref_unref (env : Env) : List StatusedTypeId → Option (String × String × String × String)
  | [] => none
  | p :: ps =>
    match env.library p.type_id with
    | .Class ref_fn unref_fn c_type =>
      match ref_fn, unref_fn with
      | some r, some u =>
        some (r, u,
          "ptr as *mut " ++ env.sys_crate_import p.type_id ++ "::" ++ c_type,
          env.sys_crate_import p.type_id)
      | _, _ => none
    | _ => find_ref_unref env ps

/-- Embeds `define_fundamental_type` (general.rs): a `Shared` wrapper whose
ref/unref come either directly (no parents; absence panics) or from the
parent search, followed by a separately emitted StaticType impl. -/
def define_fundamental_type (env : Env) (type_name glib_name glib_func_name : String)
    (ref_func unref_func : Option String) (parents : List StatusedTypeId)
    (visibility : Visibility) : Option (List String) :=
  let sys_crate_name := env.main_sys_crate_name
  let resolved :=
    if parents.isEmpty then
      match ref_func, unref_func with
      | some r, some u => some (r, u, "ptr", sys_crate_name)
      | _, _ => none
    else
      find_ref_unref env parents
  match resolved with
  | none => none
  | some (ref_fn, unref_fn, ptr, ffi_crate_name) =>
    some
      ([env.use_glib_type "wrapper!" ++ " \x7b"] ++
        doc_alias glib_name "" 1 ++
        ["\t" ++ visibility.render ++ " struct " ++ type_name ++ "(Shared<" ++ sys_crate_name ++ "::" ++ glib_name ++ ">);",
         "",
         "\tmatch fn \x7b",
         "\t\tref => |ptr| " ++ ffi_crate_name ++ "::" ++ ref_fn ++ "(" ++ ptr ++ "),",
         "\t\tunref => |ptr| " ++ ffi_crate_name ++ "::" ++ unref_fn ++ "(" ++ ptr ++ "),",
         "\t\x7d",
         "\x7d",
         "\n",
         "impl " ++ env.use_glib_type "StaticType" ++ " for " ++ type_name ++ " \x7b",
         "\tfn static_type() -> " ++ env.use_glib_type "Type" ++ " \x7b",
         "\t\t unsafe \x7b from_glib(" ++ sys_crate_name ++ "::" ++ glib_func_name ++ "()) \x7d",
         "\t\x7d",
         "\x7d"])

/-- Embeds `define_object_type` (general.rs): object/interface wrapper with
requires/extends/implements lists drawn from the non-ignored parents. -/
def define_object_type (env : Env) (type_name glib_name : String)
    (glib_class_name : Option String) (glib_func_name : String)
    (is_interface : Bool) (parents : List StatusedTypeId)
    (visibility : Visibility) : List String :=
  let sys_crate_name := env.main_sys_crate_name
  let class_name :=
    match glib_class_name with
    | some s => ", " ++ sys_crate_name ++ "::" ++ s
    | none => ""
  let kind_name := if is_interface then "Interface" else "Object"
  let parents := parents.filter fun p => !p.status.ignored
  let body :=
    if parents.isEmpty then
      ["\t" ++ visibility.render ++ " struct " ++ type_name ++ "(" ++ kind_name ++ "<" ++ sys_crate_name ++ "::" ++ glib_name ++ class_name ++ ">);"]
    else if is_interface then
      let prerequisites := parents.map (format_parent_name env)
      ["\t" ++ visibility.render ++ " struct " ++ type_name ++ "(Interface<" ++ sys_crate_name ++ "::" ++ glib_name ++ class_name ++ ">) @requires " ++
        String.intercalate ", " prerequisites ++ ";"]
    else
      let interfaces :=
        (parents.filter fun p => (env.library p.type_id).isInterface && !p.status.ignored).map
          (format_parent_name env)
      let class_parents :=
        (parents.filter fun p => (env.library p.type_id).isClass && !p.status.ignored).map
          (format_parent_name env)
      let parents_string :=
        (if class_parents.isEmpty then "" else " @extends " ++ String.intercalate ", " class_parents) ++
          (if interfaces.isEmpty then ""
           else (if class_parents.isEmpty then "" else ",") ++ " @implements " ++ String.intercalate ", " interfaces)
      ["\t" ++ visibility.render ++ " struct " ++ type_name ++ "(Object<" ++ sys_crate_name ++ "::" ++ glib_name ++ class_name ++ ">)" ++ parents_string ++ ";"]
  [env.use_glib_type "wrapper!" ++ " \x7b"] ++
    doc_alias glib_name "" 1 ++
    body ++
    ["",
     "\tmatch fn \x7b",
     "\t\ttype_ => || " ++ sys_crate_name ++ "::" ++ glib_func_name ++ "(),",
     "\t\x7d",
     "\x7d"]

/-- Embeds `define_boxed_type_internal` (general.rs): the Boxed wrapper
declaration; init/copy_into/clear are emitted only when all three
expressions are present, and type_ only when a get-type function is given. -/
def define_boxed_type_internal (env : Env) (type_name glib_name : String)
    (copy_fn : TraitInfo) (free_fn : String) (boxed_inline : Bool)
    (init_function_expression copy_into_function_expression clear_function_expression : Option String)
    (get_type_fn : Option String) (derive : List Derive) (visibility : Visibility) : List String :=
  let sys_crate_name := env.main_sys_crate_name
  let mut_ov := if copy_fn.first_parameter_mut then "mut_override(ptr)" else "ptr"
  [env.use_glib_type "wrapper!" ++ " \x7b"] ++
    derives derive 1 ++
    ["\t" ++ visibility.render ++ " struct " ++ type_name ++ "(Boxed" ++ (if boxed_inline then "Inline" else "") ++ "<" ++ sys_crate_name ++ "::" ++ glib_name ++ ">);",
     "",
     "\tmatch fn \x7b",
     "\t\tcopy => |ptr| " ++ sys_crate_name ++ "::" ++ copy_fn.glib_name ++ "(" ++ mut_ov ++ "),",
     "\t\tfree => |ptr| " ++ sys_crate_name ++ "::" ++ free_fn ++ "(ptr),"] ++
    (match init_function_expression, copy_into_function_expression, clear_function_expression with
     | some i, some c, some cl =>
       ["\t\tinit => " ++ i ++ ",",
        "\t\tcopy_into => " ++ c ++ ",",
        "\t\tclear => " ++ cl ++ ","]
     | _, _, _ => []) ++
    (match get_type_fn with
     | some get_type_fn => ["\t\ttype_ => || " ++ sys_crate_name ++ "::" ++ get_type_fn ++ "(),"]
     | none => []) ++
    ["\t\x7d", "\x7d"]

/-- Embeds `define_boxed_type` (general.rs): when the get-type function has
its own introduction version, the whole declaration is rendered twice, once
under the version guard with the accessor and once under the complement
guard without it. -/
def define_boxed_type (env : Env) (type_name glib_name : String)
    (copy_fn : TraitInfo) (free_fn : String) (boxed_inline : Bool)
    (init_function_expression copy_into_function_expression clear_function_expression : Option String)
    (get_type_fn : Option (String × Option Version)) (derive : List Derive)
    (visibility : Visibility) : List String :=
  [""] ++
    match get_type_fn with
    | some (get_type_fn, get_type_version) =>
      if get_type_version.isSome then
        version_condition env none get_type_version false 0 ++
          define_boxed_type_internal env type_name glib_name copy_fn free_fn boxed_inline
            init_function_expression copy_into_function_expression clear_function_expression
            (some get_type_fn) derive visibility ++
          [""] ++
          not_version_condition_no_dox env none get_type_version false 0 ++
          define_boxed_type_internal env type_name glib_name copy_fn free_fn boxed_inline
            init_function_expression copy_into_function_expression clear_function_expression
            none derive visibility
      else
        define_boxed_type_internal env type_name glib_name copy_fn free_fn boxed_inline
          init_function_expression copy_into_function_expression clear_function_expression
          (some get_type_fn) derive visibility
    | none =>
      define_boxed_type_internal env type_name glib_name copy_fn free_fn boxed_inline
        init_function_expression copy_into_function_expression clear_function_expression
        none derive visibility

/-- Embeds `define_auto_boxed_type` (general.rs): copy/free routed through
the generic g_boxed_copy/g_boxed_free keyed by the type's own get-type
function; the init/copy_into/clear triple again only when fully present. -/
def define_auto_boxed_type (env : Env) (type_name glib_name : String)
    (boxed_inline : Bool)
    (init_function_expression copy_into_function_expression clear_function_expression : Option String)
    (get_type_fn : String) (derive : List Derive) (visibility : Visibility) : List String :=
  let sys_crate_name := env.main_sys_crate_name
  [""] ++
    [env.use_glib_type "wrapper!" ++ " \x7b"] ++
    derives derive 1 ++
    ["\t" ++ visibility.render ++ " struct " ++ type_name ++ "(Boxed" ++ (if boxed_inline then "Inline" else "") ++ "<" ++ sys_crate_name ++ "::" ++ glib_name ++ ">);",
     "",
     "\tmatch fn \x7b",
     "\t\tcopy => |ptr| " ++ env.use_glib_type "gobject_ffi::g_boxed_copy" ++ "(" ++ sys_crate_name ++ "::" ++ get_type_fn ++ "(), ptr as *mut _) as *mut " ++ sys_crate_name ++ "::" ++ glib_name ++ ",",
     "\t\tfree => |ptr| " ++ env.use_glib_type "gobject_ffi::g_boxed_free" ++ "(" ++ sys_crate_name ++ "::" ++ get_type_fn ++ "(), ptr as *mut _),"] ++
    (match init_function_expression, copy_into_function_expression, clear_function_expression with
     | some i, some c, some cl =>
       ["\t\tinit => " ++ i ++ ",",
        "\t\tcopy_into => " ++ c ++ ",",
        "\t\tclear => " ++ cl ++ ","]
     | _, _, _ => []) ++
    ["\t\ttype_ => || " ++ sys_crate_name ++ "::" ++ get_type_fn ++ "(),",
     "\t\x7d", "\x7d"]

/-- Embeds `define_shared_type_internal` (general.rs): the Shared wrapper
declaration with directly supplied ref/unref and optional type_ accessor. -/
def define_shared_type_internal (env : Env) (type_name glib_name ref_fn unref_fn : String)
    (get_type_fn : Option String) (derive : List Derive) (visibility : Visibility) : List String :=
  let sys_crate_name := env.main_sys_crate_name
  [env.use_glib_type "wrapper!" ++ " \x7b"] ++
    derives derive 1 ++
    ["\t" ++ visibility.render ++ " struct " ++ type_name ++ "(Shared<" ++ sys_crate_name ++ "::" ++ glib_name ++ ">);",
     "",
     "\tmatch fn \x7b",
     "\t\tref => |ptr| " ++ sys_crate_name ++ "::" ++ ref_fn ++ "(ptr),",
     "\t\tunref => |ptr| " ++ sys_crate_name ++ "::" ++ unref_fn ++ "(ptr),"] ++
    (match get_type_fn with
     | some get_type_fn => ["\t\ttype_ => || " ++ sys_crate_name ++ "::" ++ get_type_fn ++ "(),"]
     | none => []) ++
    ["\t\x7d", "\x7d"]

/-- Embeds `define_shared_type` (general.rs): complement-guard pairing when
the get-type function carries its own introduction version. -/
def define_shared_type (env : Env) (type_name glib_name ref_fn unref_fn : String)
    (get_type_fn : Option (String × Option Version)) (derive : List Derive)
    (visibility : Visibility) : List String :=
  [""] ++
    match get_type_fn with
    | some (get_type_fn, get_type_version) =>
      if get_type_version.isSome then
        version_condition env none get_type_version false 0 ++
          define_shared_type_internal env type_name glib_name ref_fn unref_fn (some get_type_fn) derive visibility ++
          [""] ++
          not_version_condition_no_dox env none get_type_version false 0 ++
          define_shared_type_internal env type_name glib_name ref_fn unref_fn none derive visibility
      else
        define_shared_type_internal env type_name glib_name ref_fn unref_fn (some get_type_fn) derive visibility
    | none =>
      define_shared_type_internal env type_name glib_name ref_fn unref_fn none derive visibility

/- ===== Import aggregator (`uses`), embedded from general.rs ===== -/

/-- Finds the first occurrence of `sep` in a character list and splits
around it (the list embedding of str::split_once). -/
def splitOnceAux (sep : List Char) : List Char → Option (List Char × List Char)
  | [] => none
  | c :: cs =>
    if sep.isPrefixOf (c :: cs) then some ([], (c :: cs).drop sep.length)
    else
      match splitOnceAux sep cs with
      | some (pre, post) => some (c :: pre, post)
      | none => none

/-- str::split_once on strings: split around the first occurrence of sep. -/
def split_once (s sep : String) : Option (String × String) :=
  (splitOnceAux sep.data s.data).map fun p => (String.mk p.1, String.mk p.2)

/-- Whether `sep` occurs as a contiguous subsequence (str::contains). -/
def containsSub : List Char → List Char → Bool
  | sep, [] => sep.isEmpty
  | sep, c :: cs => sep.isPrefixOf (c :: cs) || containsSub sep cs

/-- Modelled from the spec: the `Imports` collaborator (analysis/imports.rs,
not under src/). Requests are kept keyed by qualified symbol name in lexical
order; duplicate requests for the same symbol collapse to one (spec section 3,
ImportRequest invariant). `uses` iterates the resulting sorted sequence. -/
def Imports.add : List (String × ImportConditions) → String → ImportConditions → List (String × ImportConditions)
  | [], name, scope => [(name, scope)]
  | (n, s) :: rest, name, scope =>
    if name = n then (n, s) :: rest
    else if strLtB name n then (name, scope) :: (n, s) :: rest
    else (n, s) :: Imports.add rest name scope

/-- Embeds the per-request scope normalization and key selection of `uses`
(general.rs): intersect the declared version bound with the outer bound,
drop it when not strictly above the main namespace's minimum-required
version, and use the canonical no-scope key when nothing remains. -/
def uses_scope_key (env : Env) (outer_version : Option Version) (crate_name : String)
    (scope : ImportConditions) : GroupKey :=
  let version1 := Version.if_stricter_than scope.version outer_version
  let version2 :=
    match version1 with
    | none => none
    | some v =>
      match env.min_required_version none with
      | some to_compare_v => if to_compare_v.ltB v then some v else none
      | none => some v
  if scope.constraints.isEmpty && version2.isNone then (crate_name, none)
  else (crate_name, some { version := version2, constraints := scope.constraints })

/-- The grouping BTreeMap of `uses`: ordered insert; an existing group gets
the symbol pushed at the end, a new group starts a singleton list. -/
def insertGrouped : List (GroupKey × List String) → GroupKey → String → List (GroupKey × List String)
  | [], key, v => [(key, [v])]
  | (k, vs) :: rest, key, v =>
    if key = k then (k, vs ++ [v]) :: rest
    else if keyLtB key k then (key, [v]) :: (k, vs) :: rest
    else (k, vs) :: insertGrouped rest key v

/-- The grouping loop of `uses` (general.rs): split each qualified name at
"::" (a name without the separator panics), normalize its scope and insert
the symbol into its group. -/
def uses_loop (env : Env) (outer_version : Option Version) :
    List (String × ImportConditions) → List (GroupKey × List String) →
    Option (List (GroupKey × List String))
  | [], m => some m
  | (name, scope) :: rest, m =>
    match split_once name "::" with
    | none => none
    | some (crate_name, sym) =>
      uses_loop env outer_version rest
        (insertGrouped m (uses_scope_key env outer_version crate_name scope) sym)

/-- The emission loop of `uses` (general.rs): per group, feature-constraint
guards and their doc twins, then the single version guard, then one
aggregated import statement. -/
def uses_render (env : Env) : List (GroupKey × List String) → List String
  | [] => []
  | ((crate_name, scope), names) :: rest =>
    (match scope with
     | none => []
     | some scope =>
       (if scope.constraints.isEmpty then []
        else
          ["#[cfg(any(" ++ String.intercalate ", " scope.constraints ++ ",feature = \"dox\"))]",
           "#[cfg_attr(feature = \"dox\", doc(cfg(" ++ String.intercalate ", " scope.constraints ++ ")))]"]) ++
         version_condition env none scope.version false 0) ++
      ["use " ++ crate_name ++ "::\x7b" ++ String.intercalate "," names ++ "\x7d;"] ++
      uses_render env rest

/-- Embeds `uses` (general.rs): a leading blank line, then the grouped,
guard-annotated import statements; `none` models the panic on a symbol name
without a namespace separator. -/
def uses (env : Env) (imports : List (String × ImportConditions)) (outer_version : Option Version) :
    Option (List String) :=
  match uses_loop env outer_version imports [] with
  | some gs => some ([""] ++ uses_render env gs)
  | none => none

/- ===== Support definitions used by the claim statements ===== -/

/-- The symbol version is strictly greater than the applicable baseline (an
absent baseline always counts as exceeded), matching the should_generate
test of version_condition_string at ns_id = none. -/
def strictlyAboveBaseline (env : Env) (v : Version) : Bool :=
  match env.min_required_version none with
  | some to_compare_v => to_compare_v.ltB v
  | none => true

/-- Truth value of an emitted guard of shape
"#[cfg(any(atom, feature = dox))]" given whether the version-feature atom
holds on the target and whether the dox feature is enabled. -/
def anyDoxActive (atomOn dox : Bool) : Bool := atomOn || dox

/-- Truth value of the complement guard
"#[cfg(not(any(atom, feature = dox)))]" for the same atom. -/
def notAnyDoxActive (atomOn dox : Bool) : Bool := !(atomOn || dox)

/-- The intersected version bound of an import request collapses: either the
intersection with the outer bound is already empty, or the result is not
strictly above the main namespace's minimum-required version. -/
def versionCollapsesAgainstMain (env : Env) (outer_version scope_version : Option Version) : Bool :=
  match Version.if_stricter_than scope_version outer_version with
  | none => true
  | some v =>
    match env.min_required_version none with
    | some to_compare_v => !to_compare_v.ltB v
    | none => false

/-- Per-character expansion of escape_string: a double quote or backslash
gains exactly one preceding backslash, everything else is unchanged. -/
def escapeFlat (c : Char) : List Char :=
  if c = '\"' || c = '\\' then ['\\', c] else [c]

/-- The import sequence is strictly sorted by qualified name (the invariant
the Imports collaborator maintains). -/
def importsSortedB : List (String × ImportConditions) → Bool
  | [] => true
  | [_] => true
  | p :: q :: rest => strLtB p.1 q.1 && importsSortedB (q :: rest)

/-- A concrete environment with no version baselines, used to instantiate
hypotheses at concrete inputs. -/
def envDefault : Env where
  min_required_version := fun _ => none
  namespaces := fun _ => ⟨"other"⟩
  main_sys_crate_name := "ffi"
  sys_crate_import := fun _ => "ffi"
  library := fun _ => .Other
  use_glib_type := fun s => "glib::" ++ s

/-- A concrete environment whose namespace 1 (crate "b") requires at least
version 2.0, while the main namespace has no baseline. -/
def envMainVsNs : Env where
  min_required_version := fun ns =>
    match ns with
    | some 1 => some ⟨2, 0, 0⟩
    | _ => none
  namespaces := fun ns => if ns = 1 then ⟨"b"⟩ else ⟨"main"⟩
  main_sys_crate_name := "ffi"
  sys_crate_import := fun _ => "ffi"
  library := fun _ => .Other
  use_glib_type := fun s => "glib::" ++ s

/-- A concrete environment whose type 1 is a class without ref/unref and
whose type 2 is a class with both. -/
def envTwoClasses : Env where
  min_required_version := fun _ => none
  namespaces := fun _ => ⟨"other"⟩
  main_sys_crate_name := "ffi"
  sys_crate_import := fun tid => if tid.id = 1 then "ffi_a" else "ffi_b"
  library := fun tid =>
    match tid.id with
    | 1 => .Class none none "AObj"
    | 2 => .Class (some "b_ref") (some "b_unref") "BObj"
    | _ => .Other
  use_glib_type := fun s => "glib::" ++ s

/-- A concrete environment whose type 1 is a class with ref/unref a_ref and
a_unref, and whose type 2 is a class with b_ref and b_unref. -/
def envTwoFullClasses : Env where
  min_required_version := fun _ => none
  namespaces := fun _ => ⟨"other"⟩
  main_sys_crate_name := "ffi"
  sys_crate_import := fun tid => if tid.id = 1 then "ffi_a" else "ffi_b"
  library := fun tid =>
    match tid.id with
    | 1 => .Class (some "a_ref") (some "a_unref") "AObj"
    | 2 => .Class (some "b_ref") (some "b_unref") "BObj"
    | _ => .Other
  use_glib_type := fun s => "glib::" ++ s

/-- A concrete environment whose type 1 is an interface and whose type 2 is
a class with ref/unref. -/
def envIfaceThenClass : Env where
  min_required_version := fun _ => none
  namespaces := fun _ => ⟨"other"⟩
  main_sys_crate_name := "ffi"
  sys_crate_import := fun tid => if tid.id = 2 then "ffi_b" else "ffi_a"
  library := fun tid =>
    match tid.id with
    | 1 => .Interface
    | 2 => .Class (some "b_ref") (some "b_unref") "BObj"
    | _ => .Other
  use_glib_type := fun s => "glib::" ++ s

/-- A concrete environment with baseline 3.0 for every namespace. -/
def envBaseline3 : Env where
  min_required_version := fun _ => some ⟨3, 0, 0⟩
  namespaces := fun _ => ⟨"other"⟩
  main_sys_crate_name := "ffi"
  sys_crate_import := fun _ => "ffi"
  library := fun _ => .Other
  use_glib_type := fun s => "glib::" ++ s

/- ===== General helper lemmas ===== -/

theorem str_eq_of_data {s t : String} (h : s.data = t.data) : s = t := by
  cases s; cases t; exact congrArg String.mk h

theorem str_data_append (s t : String) : (s ++ t).data = s.data ++ t.data := by
  cases s; cases t; rfl

theorem str_push_data (s : String) (c : Char) : (s.push c).data = s.data ++ [c] := by
  cases s; rfl

theorem str_empty_data : ("" : String).data = [] := rfl

theorem Version.ltB_iff (a b : Version) :
    a.ltB b = true ↔
      (a.major < b.major ∨ (a.major = b.major ∧
        (a.minor < b.minor ∨ (a.minor = b.minor ∧ a.micro < b.micro)))) := by
  simp [Version.ltB, Bool.or_eq_true, Bool.and_eq_true, decide_eq_true_eq]

theorem Version.ltB_irrefl (v : Version) : v.ltB v = false := by
  cases h : v.ltB v with
  | false => rfl
  | true => rw [Version.ltB_iff] at h; omega

theorem Version.ltB_trans {a b c : Version} (h1 : a.ltB b = true) (h2 : b.ltB c = true) :
    a.ltB c = true := by
  rw [Version.ltB_iff] at h1 h2 ⊢; omega

theorem Version.ltB_connex {a b : Version} (h : a ≠ b) :
    a.ltB b = true ∨ b.ltB a = true := by
  cases a
  cases b
  rw [Version.ltB_iff, Version.ltB_iff]
  dsimp only
  simp only [ne_eq, Version.mk.injEq, not_and] at h
  omega

theorem opt_getBang_some {α : Type} [Inhabited α] (a : α) : (some a).get! = a := rfl

/- ===== C10: escape_string ===== -/

theorem escape_fold_data (l : List Char) :
    ∀ es : String,
      (l.foldl (fun es c => if c = '\"' || c = '\\' then (es.push '\\').push c else es.push c) es).data =
        es.data ++ l.foldr (fun c acc => escapeFlat c ++ acc) [] := by
  induction l with
  | nil =>
    intro es
    rw [List.foldl_nil, List.foldr_nil, List.append_nil]
  | cons c cs ih =>
    intro es
    rw [List.foldl_cons, List.foldr_cons, ih]
    by_cases h : c = '\"' || c = '\\'
    · rw [if_pos h]
      show _ = es.data ++ (escapeFlat c ++ _)
      rw [escapeFlat, if_pos h, str_push_data, str_push_data, List.append_assoc, List.append_assoc]
      rfl
    · rw [if_neg h]
      show _ = es.data ++ (escapeFlat c ++ _)
      rw [escapeFlat, if_neg h, str_push_data, List.append_assoc]

theorem escape_data (s : String) :
    (escape_string s).data = s.data.foldr (fun c acc => escapeFlat c ++ acc) [] := by
  have h0 := escape_fold_data s.data ""
  simpa only [str_empty_data, List.nil_append] using h0

theorem escape_noop_of_plain (l : List Char) (h : ∀ c ∈ l, c ≠ '\"' ∧ c ≠ '\\') :
    l.foldr (fun c acc => escapeFlat c ++ acc) [] = l := by
  induction l with
  | nil => rfl
  | cons c cs ih =>
    have hc := h c (List.mem_cons_self c cs)
    have hflat : escapeFlat c = [c] := by
      simp [escapeFlat, hc.1, hc.2]
    rw [List.foldr_cons, hflat, ih fun x hx => h x (List.mem_cons_of_mem c hx)]
    rfl

/-- C10: escape_string inserts exactly one backslash immediately before each
double quote and each backslash, leaves every other character unchanged and
in order (characterized by the per-character expansion escapeFlat); the
empty string maps to itself, and a string with neither special character
maps to itself. -/
theorem escape_string_spec :
    (∀ s : String,
      (escape_string s).data = s.data.foldr (fun c acc => escapeFlat c ++ acc) []) ∧
    escape_string "" = "" ∧
    (∀ s : String, (∀ c ∈ s.data, c ≠ '\"' ∧ c ≠ '\\') → escape_string s = s) := by
  refine ⟨escape_data, rfl, fun s h => ?_⟩
  · apply str_eq_of_data
    rw [escape_data]
    exact escape_noop_of_plain s.data h

/-- C10 witness: a plain string maps to itself. -/
theorem escape_string_spec_witness :
    (∀ c ∈ ("no escaping here" : String).data, c ≠ '\"' ∧ c ≠ '\\') ∧
      escape_string "no escaping here" = "no escaping here" :=
  ⟨by decide, escape_string_spec.2.2 "no escaping here" (by decide)⟩

/- ===== C3: version_condition_string ===== -/

/-- C3: the version-guard resolver returns none iff the symbol version is
absent, or a baseline is present and the symbol version is not strictly
greater than it; in particular an absent baseline with a present version
always yields a guard, and a version equal to the baseline yields none. -/
theorem version_condition_string_none_char (env : Env) (ns_id : Option Nat)
    (version : Option Version) (commented : Bool) (indent : Nat) :
    (version_condition_string env ns_id version commented indent = none) ↔
      (match version, env.min_required_version ns_id with
       | some v, some b => b.ltB v = false
       | some _, none => False
       | none, _ => True) := by
  cases version with
  | none =>
    cases hm : env.min_required_version ns_id <;> simp [version_condition_string, hm]
  | some v =>
    cases hm : env.min_required_version ns_id with
    | none => simp [version_condition_string, hm, cfg_condition_string]
    | some b =>
      cases hb : b.ltB v <;> simp [version_condition_string, hm, hb, cfg_condition_string]

theorem version_condition_string_none_iff :
    ∀ (env : Env) (ns_id : Option Nat) (version : Option Version) (commented : Bool) (indent : Nat),
      (version_condition_string env ns_id version commented indent = none ↔
        version = none ∨
          ∃ v b, version = some v ∧ env.min_required_version ns_id = some b ∧ b.ltB v = false) ∧
      (∀ v, version = some v → env.min_required_version ns_id = none →
        (version_condition_string env ns_id version commented indent).isSome = true) ∧
      (∀ v, version = some v → env.min_required_version ns_id = some v →
        version_condition_string env ns_id version commented indent = none) := by
  intro env ns_id version commented indent
  refine ⟨?_, ?_, ?_⟩
  · rw [version_condition_string_none_char]
    cases version with
    | none => simp
    | some v =>
      cases hm : env.min_required_version ns_id with
      | none => simp [hm]
      | some b => simp [hm]
  · intro v hv hmn
    subst hv
    cases h : version_condition_string env ns_id (some v) commented indent with
    | some _ => rfl
    | none =>
      rw [version_condition_string_none_char, hmn] at h
      exact absurd h (by simp)
  · intro v hv hmv
    subst hv
    rw [version_condition_string_none_char, hmv]
    simp [Version.ltB_irrefl]

/- ===== C9: cfg_deprecated_string ===== -/

/-- C9: a deprecation marker is produced exactly when a deprecation version
is present; it is the unguarded form when the version is at or below the
baseline (is_too_low_version) and the cfg_attr-guarded form otherwise. -/
theorem cfg_deprecated_string_forms :
    ∀ (env : Env) (type_tid : Option TypeId) (v : Version) (commented : Bool) (indent : Nat),
      cfg_deprecated_string env type_tid none commented indent = none ∧
      (env.is_too_low_version (type_tid.map TypeId.ns_id) (some v) = true →
        cfg_deprecated_string env type_tid (some v) commented indent =
          some (tabs indent ++ (if commented then "//" else "") ++
            "#[deprecated = \"Since " ++ v.display ++ "\"]")) ∧
      (env.is_too_low_version (type_tid.map TypeId.ns_id) (some v) = false →
        cfg_deprecated_string env type_tid (some v) commented indent =
          some (tabs indent ++ (if commented then "//" else "") ++
            "#[cfg_attr(" ++ v.to_cfg none ++ ", deprecated = \"Since " ++ v.display ++ "\")]")) := by
  intro env type_tid v commented indent
  refine ⟨rfl, fun h => ?_, fun h => ?_⟩ <;>
    simp [cfg_deprecated_string, h]

/- ===== C2: the init/copy_into/clear triple ===== -/

/-- C2 amended: for boxed and auto-boxed types the three-function group is
all-or-none in the rendered output: when all three expressions are supplied
the match block contains the init, copy_into and clear entries, and when any
of the three is missing the output is identical to supplying none of them —
a partial triple is silently treated as absent rather than raised. -/
theorem boxed_triple_all_or_none :
    (∀ (env : Env) tn gn copy_fn free_fn bi (i c cl : Option String) gt der vis a b d,
      i = some a → c = some b → cl = some d →
      ("\t\tinit => " ++ a ++ ",") ∈ define_boxed_type_internal env tn gn copy_fn free_fn bi i c cl gt der vis ∧
      ("\t\tcopy_into => " ++ b ++ ",") ∈ define_boxed_type_internal env tn gn copy_fn free_fn bi i c cl gt der vis ∧
      ("\t\tclear => " ++ d ++ ",") ∈ define_boxed_type_internal env tn gn copy_fn free_fn bi i c cl gt der vis) ∧
    (∀ (env : Env) tn gn copy_fn free_fn bi (i c cl : Option String) gt der vis,
      i = none ∨ c = none ∨ cl = none →
      define_boxed_type_internal env tn gn copy_fn free_fn bi i c cl gt der vis =
        define_boxed_type_internal env tn gn copy_fn free_fn bi none none none gt der vis) ∧
    (∀ (env : Env) tn gn bi (i c cl : Option String) gt der vis a b d,
      i = some a → c = some b → cl = some d →
      ("\t\tinit => " ++ a ++ ",") ∈ define_auto_boxed_type env tn gn bi i c cl gt der vis ∧
      ("\t\tcopy_into => " ++ b ++ ",") ∈ define_auto_boxed_type env tn gn bi i c cl gt der vis ∧
      ("\t\tclear => " ++ d ++ ",") ∈ define_auto_boxed_type env tn gn bi i c cl gt der vis) ∧
    (∀ (env : Env) tn gn bi (i c cl : Option String) gt der vis,
      i = none ∨ c = none ∨ cl = none →
      define_auto_boxed_type env tn gn bi i c cl gt der vis =
        define_auto_boxed_type env tn gn bi none none none gt der vis) := by
  refine ⟨?_, ?_, ?_, ?_⟩
  · intro env tn gn copy_fn free_fn bi i c cl gt der vis a b d hi hc hcl
    subst hi; subst hc; subst hcl
    refine ⟨?_, ?_, ?_⟩ <;> simp [define_boxed_type_internal]
  · intro env tn gn copy_fn free_fn bi i c cl gt der vis h
    cases i <;> cases c <;> cases cl <;> simp_all [define_boxed_type_internal]
  · intro env tn gn bi i c cl gt der vis a b d hi hc hcl
    subst hi; subst hc; subst hcl
    refine ⟨?_, ?_, ?_⟩ <;> simp [define_auto_boxed_type]
  · intro env tn gn bi i c cl gt der vis h
    cases i <;> cases c <;> cases cl <;> simp_all [define_auto_boxed_type]

/-- C2 counterexample: a partially specified triple (only the init
expression present) is NOT raised as an error: define_boxed_type_internal
renders a normal declaration block that simply omits all three entries, so
the claim that a partial triple is raised immediately fails on this input. -/
theorem boxed_triple_partial_silently_dropped_cex :
    define_boxed_type_internal envDefault "T" "GT" ⟨"t_copy", false⟩ "t_free" false
        (some "INIT_EXPR") none none none [] ⟨"pub"⟩ =
      ["glib::wrapper! \x7b",
       "\tpub struct T(Boxed<ffi::GT>);",
       "",
       "\tmatch fn \x7b",
       "\t\tcopy => |ptr| ffi::t_copy(ptr),",
       "\t\tfree => |ptr| ffi::t_free(ptr),",
       "\t\x7d",
       "\x7d"] ∧
    "\t\tinit => INIT_EXPR," ∉
      define_boxed_type_internal envDefault "T" "GT" ⟨"t_copy", false⟩ "t_free" false
        (some "INIT_EXPR") none none none [] ⟨"pub"⟩ :=
  ⟨rfl, by decide⟩

/-- C2 witness: with all three expressions supplied the three entries are
rendered; with only init supplied the output equals the no-triple output. -/
theorem boxed_triple_all_or_none_witness :
    (("\t\tinit => I," ∈
        define_boxed_type_internal envDefault "T" "GT" ⟨"t_copy", false⟩ "t_free" false
          (some "I") (some "C") (some "L") none [] ⟨"pub"⟩) ∧
      ("\t\tcopy_into => C," ∈
        define_boxed_type_internal envDefault "T" "GT" ⟨"t_copy", false⟩ "t_free" false
          (some "I") (some "C") (some "L") none [] ⟨"pub"⟩) ∧
      ("\t\tclear => L," ∈
        define_boxed_type_internal envDefault "T" "GT" ⟨"t_copy", false⟩ "t_free" false
          (some "I") (some "C") (some "L") none [] ⟨"pub"⟩)) ∧
    define_auto_boxed_type envDefault "T" "GT" false (some "I") none none "t_get_type" [] ⟨"pub"⟩ =
      define_auto_boxed_type envDefault "T" "GT" false none none none "t_get_type" [] ⟨"pub"⟩ :=
  ⟨boxed_triple_all_or_none.1 envDefault "T" "GT" ⟨"t_copy", false⟩ "t_free" false
      (some "I") (some "C") (some "L") none [] ⟨"pub"⟩ "I" "C" "L" rfl rfl rfl,
   boxed_triple_all_or_none.2.2.2 envDefault "T" "GT" false
      (some "I") none none "t_get_type" [] ⟨"pub"⟩ (Or.inr (Or.inl rfl))⟩

/- ===== C7: ignored ancestors ===== -/

/-- C7 amended: define_object_type's output never depends on ignored
ancestor entries — it equals the output computed from the list with ignored
entries filtered out (define_fundamental_type, by contrast, consults its
ancestor list as given; see the counterexample). -/
theorem object_type_ignores_ignored_parents :
    ∀ (env : Env) tn gn gcn gfn is_interface parents vis,
      define_object_type env tn gn gcn gfn is_interface parents vis =
        define_object_type env tn gn gcn gfn is_interface
          (parents.filter fun p => !p.status.ignored) vis := by
  intro env tn gn gcn gfn is_interface parents vis
  simp [define_object_type, List.filter_filter]

/-- C7 counterexample: define_fundamental_type consults an ignored ancestor:
with a first ancestor that is an ignored class carrying ref/unref, the
output differs from the output on the list without that ignored entry, so
ignored entries do influence fundamental-type rendering. -/
theorem fundamental_ignored_ancestor_cex :
    define_fundamental_type envTwoFullClasses "T" "GT" "gt_get_type" none none
        [⟨⟨0, 1⟩, "A", .ignore⟩, ⟨⟨0, 2⟩, "B", .generate⟩] ⟨"pub"⟩ ≠
      define_fundamental_type envTwoFullClasses "T" "GT" "gt_get_type" none none
        [⟨⟨0, 2⟩, "B", .generate⟩] ⟨"pub"⟩ := by
  decide

/- ===== C6: fundamental-type ancestor resolution ===== -/

theorem find_ref_unref_skip (env : Env) (q : StatusedTypeId) (qs : List StatusedTypeId)
    (hq : (env.library q.type_id).isClass = false) :
    find_ref_unref env (q :: qs) = find_ref_unref env qs := by
  cases h : env.library q.type_id with
  | Class rf uf ct => rw [h] at hq; simp [LibType.isClass] at hq
  | Interface => simp [find_ref_unref, h]
  | Other => simp [find_ref_unref, h]

theorem find_ref_unref_found (env : Env) (pre : List StatusedTypeId)
    (p : StatusedTypeId) (post : List StatusedTypeId) (r u ct : String)
    (hall : pre.all (fun q => !(env.library q.type_id).isClass) = true)
    (hp : env.library p.type_id = .Class (some r) (some u) ct) :
    find_ref_unref env (pre ++ p :: post) =
      some (r, u, "ptr as *mut " ++ env.sys_crate_import p.type_id ++ "::" ++ ct,
        env.sys_crate_import p.type_id) := by
  induction pre with
  | nil => simp [find_ref_unref, hp]
  | cons q qs ih =>
    rw [List.all_cons, Bool.and_eq_true] at hall
    rw [List.cons_append, find_ref_unref_skip env q _ (by simpa using hall.1)]
    exact ih hall.2

/-- C6 amended: define_fundamental_type resolves lifetime operations from
the first ancestor whose underlying kind is a class: when every earlier
ancestor is not a class and that first class ancestor declares both ref and
unref, the rendered declaration uses its functions and a pointer cast
qualified by its owning sys crate; a first class ancestor missing ref or
unref is a contract violation (no output), and an empty ancestor list with
no directly declared ref or unref likewise fails. -/
theorem fundamental_ancestor_resolution :
    (∀ (env : Env) tn gn gfn rf uf vis (pre : List StatusedTypeId) p post r u ct,
      pre.all (fun q => !(env.library q.type_id).isClass) = true →
      env.library p.type_id = .Class (some r) (some u) ct →
      define_fundamental_type env tn gn gfn rf uf (pre ++ p :: post) vis =
        some
          ([env.use_glib_type "wrapper!" ++ " \x7b"] ++
            doc_alias gn "" 1 ++
            ["\t" ++ vis.render ++ " struct " ++ tn ++ "(Shared<" ++ env.main_sys_crate_name ++ "::" ++ gn ++ ">);",
             "",
             "\tmatch fn \x7b",
             "\t\tref => |ptr| " ++ env.sys_crate_import p.type_id ++ "::" ++ r ++ "(" ++
               ("ptr as *mut " ++ env.sys_crate_import p.type_id ++ "::" ++ ct) ++ "),",
             "\t\tunref => |ptr| " ++ env.sys_crate_import p.type_id ++ "::" ++ u ++ "(" ++
               ("ptr as *mut " ++ env.sys_crate_import p.type_id ++ "::" ++ ct) ++ "),",
             "\t\x7d",
             "\x7d",
             "\n",
             "impl " ++ env.use_glib_type "StaticType" ++ " for " ++ tn ++ " \x7b",
             "\tfn static_type() -> " ++ env.use_glib_type "Type" ++ " \x7b",
             "\t\t unsafe \x7b from_glib(" ++ env.main_sys_crate_name ++ "::" ++ gfn ++ "()) \x7d",
             "\t\x7d",
             "\x7d"])) ∧
    (∀ (env : Env) tn gn gfn rf uf vis, rf = none ∨ uf = none →
      define_fundamental_type env tn gn gfn rf uf [] vis = none) := by
  constructor
  · intro env tn gn gfn rf uf vis pre p post r u ct hall hp
    have hne : (pre ++ p :: post).isEmpty = false := by cases pre <;> rfl
    simp [define_fundamental_type, hne, find_ref_unref_found env pre p post r u ct hall hp]
  · intro env tn gn gfn rf uf vis h
    rcases h with rfl | rfl
    · cases uf <;> simp [define_fundamental_type]
    · cases rf <;> simp [define_fundamental_type]

/-- C6 counterexample: the claim says the search takes the first ancestor
that is a class AND declares both ref and unref; with ancestors
[A (class, no ref/unref), B (class, with ref/unref)] it would use B's
functions, but the code stops at A and aborts (renders nothing). -/
theorem fundamental_first_class_ancestor_cex :
    define_fundamental_type envTwoClasses "T" "GT" "gt_get_type" none none
        [⟨⟨0, 1⟩, "A", .generate⟩, ⟨⟨0, 2⟩, "B", .generate⟩] ⟨"pub"⟩ = none :=
  rfl

/-- C6 witness: with ancestors [A (interface), B (class with ref/unref)] the
declaration uses B's functions and B's sys crate in the pointer cast, and an
empty ancestor list without direct ref/unref fails. -/
theorem fundamental_ancestor_resolution_witness :
    (([⟨⟨0, 1⟩, "A", .generate⟩] : List StatusedTypeId).all
        (fun q => !(envIfaceThenClass.library q.type_id).isClass) = true ∧
      envIfaceThenClass.library ⟨0, 2⟩ = .Class (some "b_ref") (some "b_unref") "BObj" ∧
      define_fundamental_type envIfaceThenClass "T" "GT" "gt_get_type" none none
          [⟨⟨0, 1⟩, "A", .generate⟩, ⟨⟨0, 2⟩, "B", .generate⟩] ⟨"pub"⟩ =
        some
          ["glib::wrapper! \x7b",
           "\t#[doc(alias = \"GT\")]",
           "\tpub struct T(Shared<ffi::GT>);",
           "",
           "\tmatch fn \x7b",
           "\t\tref => |ptr| ffi_b::b_ref(ptr as *mut ffi_b::BObj),",
           "\t\tunref => |ptr| ffi_b::b_unref(ptr as *mut ffi_b::BObj),",
           "\t\x7d",
           "\x7d",
           "\n",
           "impl glib::StaticType for T \x7b",
           "\tfn static_type() -> glib::Type \x7b",
           "\t\t unsafe \x7b from_glib(ffi::gt_get_type()) \x7d",
           "\t\x7d",
           "\x7d"]) ∧
    define_fundamental_type envIfaceThenClass "T" "GT" "gt_get_type" none (some "u") [] ⟨"pub"⟩ = none :=
  ⟨⟨rfl, rfl,
    fundamental_ancestor_resolution.1 envIfaceThenClass "T" "GT" "gt_get_type" none none ⟨"pub"⟩
      [⟨⟨0, 1⟩, "A", .generate⟩] ⟨⟨0, 2⟩, "B", .generate⟩ [] "b_ref" "b_unref" "BObj" rfl rfl⟩,
   fundamental_ancestor_resolution.2 envIfaceThenClass "T" "GT" "gt_get_type" none (some "u") ⟨"pub"⟩
     (Or.inl rfl)⟩

/- ===== Order lemmas for the grouping-key comparators (C5) ===== -/

theorem charLtB_irrefl (a : Char) : charLtB a a = false := by
  simp [charLtB]

theorem charLtB_trans {a b c : Char} (h1 : charLtB a b = true) (h2 : charLtB b c = true) :
    charLtB a c = true := by
  simp only [charLtB, decide_eq_true_eq] at *
  exact lt_trans h1 h2

theorem charLtB_connex {a b : Char} (h : a ≠ b) :
    charLtB a b = true ∨ charLtB b a = true := by
  simp only [charLtB, decide_eq_true_eq]
  exact lt_or_gt_of_ne h

theorem listLexB_irrefl {α : Type} [DecidableEq α] (lt : α → α → Bool)
    (hirr : ∀ a, lt a a = false) : ∀ l, listLexB lt l l = false := by
  intro l
  induction l with
  | nil => rfl
  | cons a as ih => simp [listLexB, hirr, ih]

theorem listLexB_trans {α : Type} [DecidableEq α] (lt : α → α → Bool)
    (htr : ∀ {a b c}, lt a b = true → lt b c = true → lt a c = true) :
    ∀ {l1 l2 l3 : List α}, listLexB lt l1 l2 = true → listLexB lt l2 l3 = true →
      listLexB lt l1 l3 = true := by
  intro l1
  induction l1 with
  | nil =>
    intro l2 l3 h12 h23
    cases l2 with
    | nil => simp [listLexB] at h12
    | cons b bs =>
      cases l3 with
      | nil => simp [listLexB] at h23
      | cons c cs => rfl
  | cons a as ih =>
    intro l2 l3 h12 h23
    cases l2 with
    | nil => simp [listLexB] at h12
    | cons b bs =>
      cases l3 with
      | nil => simp [listLexB] at h23
      | cons c cs =>
        simp only [listLexB, Bool.or_eq_true, Bool.and_eq_true, decide_eq_true_eq] at h12 h23 ⊢
        rcases h12 with hab | ⟨rfl, h12'⟩
        · rcases h23 with hbc | ⟨rfl, h23'⟩
          · exact Or.inl (htr hab hbc)
          · exact Or.inl hab
        · rcases h23 with hbc | ⟨rfl, h23'⟩
          · exact Or.inl hbc
          · exact Or.inr ⟨rfl, ih h12' h23'⟩

theorem listLexB_connex {α : Type} [DecidableEq α] (lt : α → α → Bool)
    (hcx : ∀ {a b}, a ≠ b → lt a b = true ∨ lt b a = true) :
    ∀ {l1 l2 : List α}, l1 ≠ l2 → listLexB lt l1 l2 = true ∨ listLexB lt l2 l1 = true := by
  intro l1
  induction l1 with
  | nil =>
    intro l2 h
    cases l2 with
    | nil => exact absurd rfl h
    | cons b bs => exact Or.inl rfl
  | cons a as ih =>
    intro l2 h
    cases l2 with
    | nil => exact Or.inr rfl
    | cons b bs =>
      by_cases hab : a = b
      · subst hab
        have hne : as ≠ bs := fun hc => h (by rw [hc])
        rcases ih hne with h1 | h1
        · exact Or.inl (by simp [listLexB, h1])
        · exact Or.inr (by simp [listLexB, h1])
      · rcases hcx hab with h1 | h1
        · exact Or.inl (by simp [listLexB, h1])
        · exact Or.inr (by simp [listLexB, h1])

theorem listLexB_append_cancel {α : Type} [DecidableEq α] (lt : α → α → Bool)
    (hirr : ∀ a, lt a a = false) :
    ∀ (p x y : List α), listLexB lt (p ++ x) (p ++ y) = listLexB lt x y := by
  intro p x y
  induction p with
  | nil => rfl
  | cons a p' ih => simp [listLexB, hirr, ih]

theorem strLtB_irrefl (s : String) : strLtB s s = false :=
  listLexB_irrefl charLtB charLtB_irrefl s.data

theorem strLtB_trans {s t u : String} (h1 : strLtB s t = true) (h2 : strLtB t u = true) :
    strLtB s u = true :=
  listLexB_trans charLtB (fun ha hb => charLtB_trans ha hb) h1 h2

theorem strLtB_connex {s t : String} (h : s ≠ t) :
    strLtB s t = true ∨ strLtB t s = true :=
  listLexB_connex charLtB (fun hne => charLtB_connex hne)
    (fun hd => h (str_eq_of_data hd))

theorem strLtB_ne {s t : String} (h : strLtB s t = true) : s ≠ t := by
  intro hc
  subst hc
  rw [strLtB_irrefl] at h
  cases h

theorem optLtB_irrefl {α : Type} (lt : α → α → Bool) (hirr : ∀ a, lt a a = false) :
    ∀ o, optLtB lt o o = false
  | none => rfl
  | some a => hirr a

theorem optLtB_trans {α : Type} (lt : α → α → Bool)
    (htr : ∀ {a b c}, lt a b = true → lt b c = true → lt a c = true) :
    ∀ {o1 o2 o3 : Option α}, optLtB lt o1 o2 = true → optLtB lt o2 o3 = true →
      optLtB lt o1 o3 = true := by
  intro o1 o2 o3 h12 h23
  cases o1 <;> cases o2 <;> cases o3 <;> simp_all [optLtB]
  exact htr h12 h23

theorem optLtB_connex {α : Type} (lt : α → α → Bool)
    (hcx : ∀ {a b}, a ≠ b → lt a b = true ∨ lt b a = true) :
    ∀ {o1 o2 : Option α}, o1 ≠ o2 → optLtB lt o1 o2 = true ∨ optLtB lt o2 o1 = true := by
  intro o1 o2 h
  cases o1 with
  | none =>
    cases o2 with
    | none => exact absurd rfl h
    | some b => exact Or.inl rfl
  | some a =>
    cases o2 with
    | none => exact Or.inr rfl
    | some b =>
      have : a ≠ b := fun hc => h (by rw [hc])
      exact hcx this

theorem listStr_irrefl : ∀ l, listLexB strLtB l l = false :=
  listLexB_irrefl strLtB strLtB_irrefl

theorem listStr_trans {l1 l2 l3 : List String} (h1 : listLexB strLtB l1 l2 = true)
    (h2 : listLexB strLtB l2 l3 = true) : listLexB strLtB l1 l3 = true :=
  listLexB_trans strLtB (fun ha hb => strLtB_trans ha hb) h1 h2

theorem listStr_connex {l1 l2 : List String} (h : l1 ≠ l2) :
    listLexB strLtB l1 l2 = true ∨ listLexB strLtB l2 l1 = true :=
  listLexB_connex strLtB (fun hne => strLtB_connex hne) h

theorem optVer_irrefl : ∀ o, optLtB Version.ltB o o = false :=
  optLtB_irrefl Version.ltB Version.ltB_irrefl

theorem optVer_trans {o1 o2 o3 : Option Version} (h1 : optLtB Version.ltB o1 o2 = true)
    (h2 : optLtB Version.ltB o2 o3 = true) : optLtB Version.ltB o1 o3 = true :=
  optLtB_trans Version.ltB (fun ha hb => Version.ltB_trans ha hb) h1 h2

theorem optVer_connex {o1 o2 : Option Version} (h : o1 ≠ o2) :
    optLtB Version.ltB o1 o2 = true ∨ optLtB Version.ltB o2 o1 = true :=
  optLtB_connex Version.ltB (fun hne => Version.ltB_connex hne) h

theorem condLtB_irrefl (a : ImportConditions) : condLtB a a = false := by
  simp [condLtB, optVer_irrefl, listStr_irrefl]

theorem condLtB_trans {a b c : ImportConditions} (h1 : condLtB a b = true)
    (h2 : condLtB b c = true) : condLtB a c = true := by
  simp only [condLtB, Bool.or_eq_true, Bool.and_eq_true, decide_eq_true_eq] at h1 h2 ⊢
  rcases h1 with h1 | ⟨he1, h1⟩
  · rcases h2 with h2 | ⟨he2, h2⟩
    · exact Or.inl (optVer_trans h1 h2)
    · rw [← he2]
      exact Or.inl h1
  · rcases h2 with h2 | ⟨he2, h2⟩
    · rw [he1]
      exact Or.inl h2
    · exact Or.inr ⟨he1.trans he2, listStr_trans h1 h2⟩

theorem condLtB_connex {a b : ImportConditions} (h : a ≠ b) :
    condLtB a b = true ∨ condLtB b a = true := by
  by_cases hv : a.version = b.version
  · have hc : a.constraints ≠ b.constraints := by
      intro hcc
      apply h
      cases a
      cases b
      simp_all
    rcases listStr_connex hc with h1 | h1
    · exact Or.inl (by simp [condLtB, hv, h1])
    · exact Or.inr (by simp [condLtB, hv.symm, h1])
  · rcases optVer_connex hv with h1 | h1
    · exact Or.inl (by simp [condLtB, h1])
    · exact Or.inr (by simp [condLtB, h1])

theorem optCond_irrefl : ∀ o, optLtB condLtB o o = false :=
  optLtB_irrefl condLtB condLtB_irrefl

theorem optCond_trans {o1 o2 o3 : Option ImportConditions} (h1 : optLtB condLtB o1 o2 = true)
    (h2 : optLtB condLtB o2 o3 = true) : optLtB condLtB o1 o3 = true :=
  optLtB_trans condLtB (fun ha hb => condLtB_trans ha hb) h1 h2

theorem optCond_connex {o1 o2 : Option ImportConditions} (h : o1 ≠ o2) :
    optLtB condLtB o1 o2 = true ∨ optLtB condLtB o2 o1 = true :=
  optLtB_connex condLtB (fun hne => condLtB_connex hne) h

theorem keyLtB_irrefl (a : GroupKey) : keyLtB a a = false := by
  simp [keyLtB, strLtB_irrefl, optCond_irrefl]

theorem keyLtB_trans {a b c : GroupKey} (h1 : keyLtB a b = true) (h2 : keyLtB b c = true) :
    keyLtB a c = true := by
  simp only [keyLtB, Bool.or_eq_true, Bool.and_eq_true, decide_eq_true_eq] at h1 h2 ⊢
  rcases h1 with h1 | ⟨he1, h1⟩
  · rcases h2 with h2 | ⟨he2, h2⟩
    · exact Or.inl (strLtB_trans h1 h2)
    · rw [← he2]
      exact Or.inl h1
  · rcases h2 with h2 | ⟨he2, h2⟩
    · rw [he1]
      exact Or.inl h2
    · exact Or.inr ⟨he1.trans he2, optCond_trans h1 h2⟩

theorem keyLtB_connex {a b : GroupKey} (h : a ≠ b) :
    keyLtB a b = true ∨ keyLtB b a = true := by
  by_cases hf : a.1 = b.1
  · have hs : a.2 ≠ b.2 := by
      intro hc
      exact h (Prod.ext hf hc)
    rcases optCond_connex hs with h1 | h1
    · exact Or.inl (by simp [keyLtB, hf, h1])
    · exact Or.inr (by simp [keyLtB, hf.symm, h1])
  · rcases strLtB_connex hf with h1 | h1
    · exact Or.inl (by simp [keyLtB, h1])
    · exact Or.inr (by simp [keyLtB, h1])

theorem keyLtB_ne {a b : GroupKey} (h : keyLtB a b = true) : a ≠ b := by
  intro hc
  subst hc
  rw [keyLtB_irrefl] at h
  cases h

/- ===== C1: complement-guard pairing ===== -/

theorem version_condition_at_zero (env : Env) (v : Version)
    (h : strictlyAboveBaseline env v = true) :
    version_condition env none (some v) false 0 =
      [("#[cfg(any(" ++ v.to_cfg none ++ ", feature = \"dox\"))]") ++ "\n" ++
        ("#[cfg_attr(feature = \"dox\", doc(cfg(" ++ v.to_cfg none ++ ")))]")] := by
  unfold strictlyAboveBaseline at h
  cases hm : env.min_required_version none with
  | none =>
    simp only [version_condition, version_condition_string, hm]
    rfl
  | some c =>
    rw [hm] at h
    have h' : c.ltB v = true := by simpa using h
    simp only [version_condition, version_condition_string, hm, h']
    rfl

theorem not_version_condition_at_zero (env : Env) (v : Version) :
    not_version_condition_no_dox env none (some v) false 0 =
      ["#[cfg(not(any(" ++ v.to_cfg none ++ ", feature = \"dox\")))]"] := by
  simp only [not_version_condition_no_dox]
  rfl

/-- C1: for a shared or boxed type whose get-type function carries an
introduction version strictly above the baseline, define_shared_type and
define_boxed_type render two declaration blocks: the first under the paired
version guard (any(version feature, dox)) and containing the type_ accessor,
the second under the complement guard (not(any(version feature, dox))) over
the same atom and omitting only the accessor; under any truth value of the
version-feature atom and of the dox feature exactly one of the two guard
shapes is active (anyDoxActive versus notAnyDoxActive). -/
theorem shared_and_boxed_type_complement_guard :
    ∀ (env : Env) tn gn rf uf g (v : Version) der vis copy_fn free_fn bi
      (ie ce cle : Option String),
      strictlyAboveBaseline env v = true →
      (define_shared_type env tn gn rf uf (some (g, some v)) der vis =
        [""] ++
          [("#[cfg(any(" ++ v.to_cfg none ++ ", feature = \"dox\"))]") ++ "\n" ++
            ("#[cfg_attr(feature = \"dox\", doc(cfg(" ++ v.to_cfg none ++ ")))]")] ++
          define_shared_type_internal env tn gn rf uf (some g) der vis ++
          [""] ++
          ["#[cfg(not(any(" ++ v.to_cfg none ++ ", feature = \"dox\")))]"] ++
          define_shared_type_internal env tn gn rf uf none der vis) ∧
      (∃ P S,
        define_shared_type_internal env tn gn rf uf (some g) der vis =
          P ++ ["\t\ttype_ => || " ++ env.main_sys_crate_name ++ "::" ++ g ++ "(),"] ++ S ∧
        define_shared_type_internal env tn gn rf uf none der vis = P ++ S) ∧
      (define_boxed_type env tn gn copy_fn free_fn bi ie ce cle (some (g, some v)) der vis =
        [""] ++
          [("#[cfg(any(" ++ v.to_cfg none ++ ", feature = \"dox\"))]") ++ "\n" ++
            ("#[cfg_attr(feature = \"dox\", doc(cfg(" ++ v.to_cfg none ++ ")))]")] ++
          define_boxed_type_internal env tn gn copy_fn free_fn bi ie ce cle (some g) der vis ++
          [""] ++
          ["#[cfg(not(any(" ++ v.to_cfg none ++ ", feature = \"dox\")))]"] ++
          define_boxed_type_internal env tn gn copy_fn free_fn bi ie ce cle none der vis) ∧
      (∃ P S,
        define_boxed_type_internal env tn gn copy_fn free_fn bi ie ce cle (some g) der vis =
          P ++ ["\t\ttype_ => || " ++ env.main_sys_crate_name ++ "::" ++ g ++ "(),"] ++ S ∧
        define_boxed_type_internal env tn gn copy_fn free_fn bi ie ce cle none der vis = P ++ S) ∧
      (∀ atomOn dox : Bool,
        (anyDoxActive atomOn dox = true ∧ notAnyDoxActive atomOn dox = false) ∨
        (anyDoxActive atomOn dox = false ∧ notAnyDoxActive atomOn dox = true)) := by
  intro env tn gn rf uf g v der vis copy_fn free_fn bi ie ce cle h
  refine ⟨?_, ?_, ?_, ?_, ?_⟩
  · simp [define_shared_type, version_condition_at_zero env v h,
      not_version_condition_at_zero, List.append_assoc]
  · refine ⟨[env.use_glib_type "wrapper!" ++ " \x7b"] ++ derives der 1 ++
      ["\t" ++ vis.render ++ " struct " ++ tn ++ "(Shared<" ++ env.main_sys_crate_name ++ "::" ++ gn ++ ">);",
       "",
       "\tmatch fn \x7b",
       "\t\tref => |ptr| " ++ env.main_sys_crate_name ++ "::" ++ rf ++ "(ptr),",
       "\t\tunref => |ptr| " ++ env.main_sys_crate_name ++ "::" ++ uf ++ "(ptr),"],
      ["\t\x7d", "\x7d"], ?_, ?_⟩ <;>
      simp [define_shared_type_internal, List.append_assoc]
  · simp [define_boxed_type, version_condition_at_zero env v h,
      not_version_condition_at_zero, List.append_assoc]
  · refine ⟨[env.use_glib_type "wrapper!" ++ " \x7b"] ++ derives der 1 ++
      ["\t" ++ vis.render ++ " struct " ++ tn ++ "(Boxed" ++ (if bi then "Inline" else "") ++ "<" ++ env.main_sys_crate_name ++ "::" ++ gn ++ ">);",
       "",
       "\tmatch fn \x7b",
       "\t\tcopy => |ptr| " ++ env.main_sys_crate_name ++ "::" ++ copy_fn.glib_name ++ "(" ++ (if copy_fn.first_parameter_mut then "mut_override(ptr)" else "ptr") ++ "),",
       "\t\tfree => |ptr| " ++ env.main_sys_crate_name ++ "::" ++ free_fn ++ "(ptr),"] ++
      (match ie, ce, cle with
       | some i, some c, some cl =>
         ["\t\tinit => " ++ i ++ ",",
          "\t\tcopy_into => " ++ c ++ ",",
          "\t\tclear => " ++ cl ++ ","]
       | _, _, _ => []),
      ["\t\x7d", "\x7d"], ?_, ?_⟩ <;>
      simp [define_boxed_type_internal, List.append_assoc]
  · intro atomOn dox
    cases atomOn <;> cases dox <;> simp [anyDoxActive, notAnyDoxActive]

/-- C1 witness: a shared type with get-type version 1.2 over an absent
baseline renders the two complement-guarded blocks, the first with the
type_ accessor and the second without it. -/
theorem shared_and_boxed_type_complement_guard_witness :
    strictlyAboveBaseline envDefault ⟨1, 2, 0⟩ = true ∧
    define_shared_type envDefault "T" "GT" "t_ref" "t_unref"
        (some ("t_get_type", some ⟨1, 2, 0⟩)) [] ⟨"pub"⟩ =
      ["",
       "#[cfg(any(feature = \"v1_2\", feature = \"dox\"))]\n#[cfg_attr(feature = \"dox\", doc(cfg(feature = \"v1_2\")))]",
       "glib::wrapper! \x7b",
       "\tpub struct T(Shared<ffi::GT>);",
       "",
       "\tmatch fn \x7b",
       "\t\tref => |ptr| ffi::t_ref(ptr),",
       "\t\tunref => |ptr| ffi::t_unref(ptr),",
       "\t\ttype_ => || ffi::t_get_type(),",
       "\t\x7d",
       "\x7d",
       "",
       "#[cfg(not(any(feature = \"v1_2\", feature = \"dox\")))]",
       "glib::wrapper! \x7b",
       "\tpub struct T(Shared<ffi::GT>);",
       "",
       "\tmatch fn \x7b",
       "\t\tref => |ptr| ffi::t_ref(ptr),",
       "\t\tunref => |ptr| ffi::t_unref(ptr),",
       "\t\x7d",
       "\x7d"] :=
  ⟨rfl,
   (shared_and_boxed_type_complement_guard envDefault "T" "GT" "t_ref" "t_unref"
      "t_get_type" ⟨1, 2, 0⟩ [] ⟨"pub"⟩ ⟨"c", false⟩ "f" false none none none rfl).1⟩

/- ===== C4: scope collapse in the import aggregator ===== -/

/-- C4 amended: in the aggregator, a request's version bound — after
intersection with the outer bound — is compared against the MAIN
namespace's minimum-required version (the code calls min_required_version
with ns_id = None), not the originating namespace's; when it is not
stricter than that main baseline it collapses to none, and a request with
empty feature constraints then lands in the canonical no-scope group. -/
theorem uses_scope_key_collapses_against_main_baseline :
    ∀ (env : Env) (outer : Option Version) (crate_name : String) (scope : ImportConditions),
      scope.constraints = [] →
      versionCollapsesAgainstMain env outer scope.version = true →
      uses_scope_key env outer crate_name scope = (crate_name, none) := by
  intro env outer crate_name scope hc hv
  unfold versionCollapsesAgainstMain at hv
  cases h1 : Version.if_stricter_than scope.version outer with
  | none => simp [uses_scope_key, h1, hc]
  | some v =>
    rw [h1] at hv
    cases hm : env.min_required_version none with
    | none => rw [hm] at hv; cases hv
    | some c =>
      rw [hm] at hv
      have hcv : c.ltB v = false := by simpa using hv
      simp [uses_scope_key, h1, hm, hcv, hc]

/-- C4 counterexample: namespace "b" (ns id 1) has minimum-required version
2.0 and the request's bound 1.0 is not stricter than it, so by the claim the
request should land in the no-scope group with no guard; but the code
compares against the main namespace's baseline (absent here), keeps the
bound, and emits a version-guarded group instead. -/
theorem uses_version_collapse_main_not_origin_cex :
    (envMainVsNs.namespaces 1).crate_name = "b" ∧
    envMainVsNs.min_required_version (some 1) = some ⟨2, 0, 0⟩ ∧
    Version.ltB ⟨2, 0, 0⟩ ⟨1, 0, 0⟩ = false ∧
    uses envMainVsNs [("b::X", ⟨some ⟨1, 0, 0⟩, []⟩)] none =
      some ["",
        "#[cfg(any(feature = \"v1\", feature = \"dox\"))]\n#[cfg_attr(feature = \"dox\", doc(cfg(feature = \"v1\")))]",
        "use b::\x7bX\x7d;"] ∧
    uses envMainVsNs [("b::X", ⟨some ⟨1, 0, 0⟩, []⟩)] none ≠ some ["", "use b::\x7bX\x7d;"] :=
  ⟨rfl, rfl, by decide, rfl, by decide⟩

/-- C4 witness: with the main baseline at 3.0, a request bound of 1.0 with
empty constraints collapses to the canonical no-scope key. -/
theorem uses_scope_key_collapses_witness :
    (ImportConditions.mk (some ⟨1, 0, 0⟩) []).constraints = [] ∧
    versionCollapsesAgainstMain envBaseline3 none (some ⟨1, 0, 0⟩) = true ∧
    uses_scope_key envBaseline3 none "b" ⟨some ⟨1, 0, 0⟩, []⟩ = ("b", none) :=
  ⟨rfl, rfl,
   uses_scope_key_collapses_against_main_baseline envBaseline3 none "b" ⟨some ⟨1, 0, 0⟩, []⟩ rfl rfl⟩

/- ===== C8: namespace separator contract ===== -/

theorem splitOnceAux_isSome (sep : List Char) (hsep : sep ≠ []) :
    ∀ l, (splitOnceAux sep l).isSome = containsSub sep l := by
  intro l
  induction l with
  | nil =>
    cases sep with
    | nil => exact absurd rfl hsep
    | cons a as => rfl
  | cons c cs ih =>
    cases hp : sep.isPrefixOf (c :: cs) with
    | true => simp [splitOnceAux, containsSub, hp]
    | false =>
      simp only [splitOnceAux, containsSub, hp, Bool.false_or]
      rw [← ih]
      cases hr : splitOnceAux sep cs with
      | none => simp [hr]
      | some pr => simp [hr]

theorem split_once_isSome (s : String) :
    (split_once s "::").isSome = containsSub ("::" : String).data s.data := by
  have h := splitOnceAux_isSome ("::" : String).data (by decide) s.data
  unfold split_once
  cases hr : splitOnceAux ("::" : String).data s.data with
  | none => rw [hr] at h; simp [hr, ← h]
  | some pr => rw [hr] at h; simp [hr, ← h]

theorem uses_loop_all_sep (env : Env) (outer : Option Version) :
    ∀ (imports : List (String × ImportConditions)) (m : List (GroupKey × List String)),
      (∀ p ∈ imports, containsSub ("::" : String).data p.1.data = true) →
      (uses_loop env outer imports m).isSome = true := by
  intro imports
  induction imports with
  | nil => intro m _; rfl
  | cons q rest ih =>
    intro m h
    obtain ⟨name, scope⟩ := q
    have hn : containsSub ("::" : String).data name.data = true :=
      h (name, scope) (List.mem_cons_self _ _)
    cases hs : split_once name "::" with
    | none =>
      rw [← split_once_isSome, hs] at hn
      cases hn
    | some pr =>
      obtain ⟨crate_name, sym⟩ := pr
      simp only [uses_loop, hs]
      exact ih _ fun p hp => h p (List.mem_cons_of_mem _ hp)

theorem uses_loop_bad_name (env : Env) (outer : Option Version)
    (name : String) (scope : ImportConditions) (suf : List (String × ImportConditions))
    (hbad : split_once name "::" = none) :
    ∀ (pre : List (String × ImportConditions)) (m : List (GroupKey × List String)),
      uses_loop env outer (pre ++ (name, scope) :: suf) m = none := by
  intro pre
  induction pre with
  | nil => intro m; simp [uses_loop, hbad]
  | cons q pre' ih =>
    intro m
    obtain ⟨n, sc⟩ := q
    rw [List.cons_append]
    cases hs : split_once n "::" with
    | none => simp [uses_loop, hs]
    | some pr =>
      obtain ⟨crate_name, sym⟩ := pr
      simp only [uses_loop, hs]
      exact ih _

/-- C8: every import request whose qualified name contains the "::"
separator is split and processed without error (the aggregator succeeds when
all names are namespace-qualified); a name lacking the separator makes the
whole aggregation abort (the modelled panic), regardless of where it occurs
in the request sequence. -/
theorem uses_namespace_separator_contract :
    (∀ (env : Env) (outer : Option Version) (imports : List (String × ImportConditions)),
      (∀ p ∈ imports, containsSub ("::" : String).data p.1.data = true) →
      (uses env imports outer).isSome = true) ∧
    (∀ (env : Env) (outer : Option Version) (pre suf : List (String × ImportConditions))
      (name : String) (scope : ImportConditions),
      containsSub ("::" : String).data name.data = false →
      uses env (pre ++ (name, scope) :: suf) outer = none) := by
  constructor
  · intro env outer imports h
    have hl := uses_loop_all_sep env outer imports [] h
    unfold uses
    cases hr : uses_loop env outer imports [] with
    | none => rw [hr] at hl; cases hl
    | some gs => rfl
  · intro env outer pre suf name scope h
    have hbad : split_once name "::" = none := by
      cases hs : split_once name "::" with
      | none => rfl
      | some pr =>
        rw [← split_once_isSome, hs] at h
        cases h
    unfold uses
    rw [uses_loop_bad_name env outer name scope suf hbad pre []]

/-- C8 witness: a fully qualified request set aggregates successfully, and a
single unqualified name aborts the whole aggregation. -/
theorem uses_namespace_separator_contract_witness :
    (∀ p ∈ ([("a::X", ImportConditions.mk none [])] : List (String × ImportConditions)),
      containsSub ("::" : String).data p.1.data = true) ∧
    (uses envDefault [("a::X", ImportConditions.mk none [])] none).isSome = true ∧
    containsSub ("::" : String).data ("NoSep" : String).data = false ∧
    uses envDefault ([] ++ ("NoSep", ImportConditions.mk none []) :: []) none = none :=
  ⟨by decide,
   uses_namespace_separator_contract.1 envDefault none [("a::X", ImportConditions.mk none [])] (by decide),
   by decide,
   uses_namespace_separator_contract.2 envDefault none [] [] "NoSep" (ImportConditions.mk none []) (by decide)⟩

/-- C9 witness: version 2.0 is at or below baseline 3.0 and gets the
unguarded marker; version 4.0 is above it and gets the guarded form. -/
theorem cfg_deprecated_string_forms_witness :
    (envBaseline3.is_too_low_version none (some ⟨2, 0, 0⟩) = true ∧
      cfg_deprecated_string envBaseline3 none (some ⟨2, 0, 0⟩) false 0 =
        some "#[deprecated = \"Since 2.0\"]") ∧
    (envBaseline3.is_too_low_version none (some ⟨4, 0, 0⟩) = false ∧
      cfg_deprecated_string envBaseline3 none (some ⟨4, 0, 0⟩) false 0 =
        some "#[cfg_attr(feature = \"v4\", deprecated = \"Since 4.0\")]") :=
  ⟨⟨rfl, (cfg_deprecated_string_forms envBaseline3 none ⟨2, 0, 0⟩ false 0).2.1 rfl⟩,
   ⟨rfl, (cfg_deprecated_string_forms envBaseline3 none ⟨4, 0, 0⟩ false 0).2.2 rfl⟩⟩


/- ===== C5: the import aggregator groups, deduplicates and sorts ===== -/

theorem splitOnceAux_eq (sep : List Char) :
    ∀ (l pre post : List Char), splitOnceAux sep l = some (pre, post) →
      l = pre ++ sep ++ post := by
  intro l
  induction l with
  | nil => intro pre post h; simp [splitOnceAux] at h
  | cons c cs ih =>
    intro pre post h
    cases hp : sep.isPrefixOf (c :: cs) with
    | true =>
      rw [splitOnceAux, if_pos hp] at h
      obtain ⟨t, ht⟩ := List.isPrefixOf_iff_prefix.mp hp
      rw [Option.some.injEq, Prod.mk.injEq] at h
      obtain ⟨hpre, hpost⟩ := h
      subst hpre
      show c :: cs = sep ++ post
      rw [← ht, List.drop_left] at hpost
      rw [← ht, hpost]
    | false =>
      rw [splitOnceAux, if_neg (by simp [hp])] at h
      cases hr : splitOnceAux sep cs with
      | none => rw [hr] at h; cases h
      | some pr =>
        obtain ⟨pre', post'⟩ := pr
        rw [hr, Option.some.injEq, Prod.mk.injEq] at h
        obtain ⟨hpre, hpost⟩ := h
        rw [← hpre, ← hpost, List.cons_append, List.cons_append]
        exact congrArg (c :: ·) (ih pre' post' hr)

theorem split_once_data {s c sym : String} (h : split_once s "::" = some (c, sym)) :
    s.data = c.data ++ ':' :: ':' :: sym.data := by
  unfold split_once at h
  cases hr : splitOnceAux ("::" : String).data s.data with
  | none => rw [hr] at h; cases h
  | some pr =>
    obtain ⟨pre, post⟩ := pr
    rw [hr] at h
    rw [Option.map, Option.some.injEq, Prod.mk.injEq] at h
    obtain ⟨hc, hs⟩ := h
    have heq := splitOnceAux_eq ("::" : String).data s.data pre post hr
    rw [heq, ← hc, ← hs]
    simp

theorem uses_scope_key_fst (env : Env) (outer : Option Version) (crate_name : String)
    (scope : ImportConditions) : (uses_scope_key env outer crate_name scope).1 = crate_name := by
  simp only [uses_scope_key]
  split <;> rfl

theorem insertGrouped_entry_cases :
    ∀ (m : List (GroupKey × List String)) (key : GroupKey) (v : String)
      (p : GroupKey × List String),
      p ∈ insertGrouped m key v →
      p ∈ m ∨ p = (key, [v]) ∨ ∃ old, (key, old) ∈ m ∧ p = (key, old ++ [v]) := by
  intro m key v
  induction m with
  | nil =>
    intro p hp
    simp only [insertGrouped, List.mem_singleton] at hp
    exact Or.inr (Or.inl hp)
  | cons q rest ih =>
    obtain ⟨k, vs⟩ := q
    intro p hp
    simp only [insertGrouped] at hp
    by_cases h1 : key = k
    · rw [if_pos h1] at hp
      rcases List.mem_cons.mp hp with rfl | hp'
      · subst h1
        exact Or.inr (Or.inr ⟨vs, List.mem_cons_self _ _, rfl⟩)
      · exact Or.inl (List.mem_cons_of_mem _ hp')
    · rw [if_neg h1] at hp
      cases h2 : keyLtB key k with
      | true =>
        rw [if_pos h2] at hp
        rcases List.mem_cons.mp hp with rfl | hp'
        · exact Or.inr (Or.inl rfl)
        · exact Or.inl hp'
      | false =>
        rw [if_neg (by simp [h2])] at hp
        rcases List.mem_cons.mp hp with rfl | hp'
        · exact Or.inl (List.mem_cons_self _ _)
        · rcases ih p hp' with h | h | ⟨old, hold, hpold⟩
          · exact Or.inl (List.mem_cons_of_mem _ h)
          · exact Or.inr (Or.inl h)
          · exact Or.inr (Or.inr ⟨old, List.mem_cons_of_mem _ hold, hpold⟩)

theorem insertGrouped_pairwise :
    ∀ (m : List (GroupKey × List String)) (key : GroupKey) (v : String),
      m.Pairwise (fun p q => keyLtB p.1 q.1 = true) →
      (insertGrouped m key v).Pairwise (fun p q => keyLtB p.1 q.1 = true) := by
  intro m key v
  induction m with
  | nil => intro _; simp [insertGrouped]
  | cons q rest ih =>
    obtain ⟨k, vs⟩ := q
    intro hp
    rw [List.pairwise_cons] at hp
    obtain ⟨hhead, htail⟩ := hp
    simp only [insertGrouped]
    by_cases h1 : key = k
    · rw [if_pos h1]
      rw [List.pairwise_cons]
      exact ⟨hhead, htail⟩
    · rw [if_neg h1]
      cases h2 : keyLtB key k with
      | true =>
        rw [if_pos rfl]
        rw [List.pairwise_cons]
        refine ⟨?_, List.pairwise_cons.mpr ⟨hhead, htail⟩⟩
        intro q hq
        rcases List.mem_cons.mp hq with rfl | hq'
        · exact h2
        · exact keyLtB_trans h2 (hhead q hq')
      | false =>
        rw [if_neg (by simp)]
        rw [List.pairwise_cons]
        refine ⟨?_, ih htail⟩
        intro q hq
        rcases insertGrouped_entry_cases rest key v q hq with h | h | ⟨old, hold, hq'⟩
        · exact hhead q h
        · rw [h]
          rcases keyLtB_connex (fun hc : (k : GroupKey) = key => h1 hc.symm) with hlt | hlt
          · exact hlt
          · rw [hlt] at h2; cases h2
        · rw [hq']
          rcases keyLtB_connex (fun hc : (k : GroupKey) = key => h1 hc.symm) with hlt | hlt
          · exact hlt
          · rw [hlt] at h2; cases h2

theorem fullLt_cancel {crate s t : String}
    (h : listLexB charLtB (crate.data ++ ':' :: ':' :: s.data)
        (crate.data ++ ':' :: ':' :: t.data) = true) :
    strLtB s t = true := by
  have hc := listLexB_append_cancel charLtB charLtB_irrefl (crate.data ++ [':', ':']) s.data t.data
  simp only [List.append_assoc, List.cons_append, List.nil_append] at hc
  rw [strLtB, ← hc]
  exact h

theorem importsSortedB_pairwise :
    ∀ (l : List (String × ImportConditions)), importsSortedB l = true →
      l.Pairwise (fun x y => strLtB x.1 y.1 = true) := by
  intro l
  induction l with
  | nil => intro _; exact List.Pairwise.nil
  | cons p rest ih =>
    intro h
    cases rest with
    | nil => simp
    | cons q rest' =>
      rw [importsSortedB, Bool.and_eq_true] at h
      obtain ⟨hpq, h'⟩ := h
      have hp := ih h'
      refine List.pairwise_cons.mpr ⟨?_, hp⟩
      intro y hy
      rcases List.mem_cons.mp hy with rfl | hy'
      · exact hpq
      · exact strLtB_trans hpq ((List.pairwise_cons.mp hp).1 y hy')

theorem uses_loop_invariant (env : Env) (outer : Option Version) :
    ∀ (imports : List (String × ImportConditions)) (m : List (GroupKey × List String))
      (gs : List (GroupKey × List String)),
      m.Pairwise (fun p q => keyLtB p.1 q.1 = true) →
      (∀ p ∈ m, p.2.Pairwise (fun a b => strLtB a b = true)) →
      (∀ p ∈ m, ∀ s ∈ p.2, ∀ q ∈ imports,
        listLexB charLtB (p.1.1.data ++ ':' :: ':' :: s.data) q.1.data = true) →
      imports.Pairwise (fun x y => strLtB x.1 y.1 = true) →
      uses_loop env outer imports m = some gs →
      gs.Pairwise (fun p q => keyLtB p.1 q.1 = true) ∧
        ∀ p ∈ gs, p.2.Pairwise (fun a b => strLtB a b = true) := by
  intro imports
  induction imports with
  | nil =>
    intro m gs h1 h2 _ _ hloop
    rw [uses_loop, Option.some.injEq] at hloop
    subst hloop
    exact ⟨h1, h2⟩
  | cons q rest ih =>
    intro m gs h1 h2 hb hs hloop
    obtain ⟨name, scope⟩ := q
    cases hsp : split_once name "::" with
    | none => rw [uses_loop, hsp] at hloop; cases hloop
    | some pr =>
      obtain ⟨crate_name, sym⟩ := pr
      rw [uses_loop, hsp] at hloop
      have hkf : (uses_scope_key env outer crate_name scope).1 = crate_name :=
        uses_scope_key_fst env outer crate_name scope
      have hdata : name.data = crate_name.data ++ ':' :: ':' :: sym.data := split_once_data hsp
      have hs' := List.pairwise_cons.mp hs
      -- the new symbol is strictly above every symbol already stored in its group
      have hnew : ∀ old, (uses_scope_key env outer crate_name scope, old) ∈ m →
          ∀ s ∈ old, strLtB s sym = true := by
        intro old hold s hsold
        have hfull := hb _ hold s hsold (name, scope) (List.mem_cons_self _ _)
        rw [hkf, hdata] at hfull
        exact fullLt_cancel hfull
      refine ih _ gs (insertGrouped_pairwise m _ sym h1) ?_ ?_ hs'.2 hloop
      · -- per-group symbol lists stay pairwise-sorted
        intro p hp
        rcases insertGrouped_entry_cases m _ sym p hp with h | h | ⟨old, hold, hpold⟩
        · exact h2 p h
        · rw [h]; simp
        · rw [hpold]
          rw [List.pairwise_append]
          refine ⟨h2 _ hold, by simp, ?_⟩
          intro a ha b hbmem
          rw [List.mem_singleton.mp hbmem]
          exact hnew old hold a ha
      · -- every stored qualified name stays below every remaining request
        intro p hp s hsmem q' hq'
        rcases insertGrouped_entry_cases m _ sym p hp with h | h | ⟨old, hold, hpold⟩
        · exact hb p h s hsmem q' (List.mem_cons_of_mem _ hq')
        · rw [h] at hsmem ⊢
          rw [List.mem_singleton.mp hsmem]
          have := hs'.1 q' hq'
          rw [hkf, ← hdata]
          exact this
        · rw [hpold] at hsmem ⊢
          rcases List.mem_append.mp hsmem with hin | hin
          · exact hb _ hold s hin q' (List.mem_cons_of_mem _ hq')
          · rw [List.mem_singleton.mp hin]
            have := hs'.1 q' hq'
            rw [hkf, ← hdata]
            exact this

/-- C5: for every request multiset as aggregated by the Imports collaborator
(a name-sorted sequence), the aggregator emits exactly one import statement
per (namespace, normalized scope) group — the group keys of the emitted map
are pairwise distinct — with each group's symbol list strictly sorted (hence
deduplicated); and the concrete requests a::X, a::Y, a::X produce, in any
arrival order, exactly the single statement use a::{X,Y}. -/
theorem uses_groups_sorted_dedup :
    (∀ (env : Env) (outer : Option Version) (imports : List (String × ImportConditions))
      (gs : List (GroupKey × List String)),
      importsSortedB imports = true →
      uses_loop env outer imports [] = some gs →
      (gs.map Prod.fst).Nodup ∧
        (∀ p ∈ gs, p.2.Pairwise (fun a b => strLtB a b = true)) ∧
        uses env imports outer = some ([""] ++ uses_render env gs)) ∧
    (∀ (env : Env) (outer : Option Version) (l : List (String × ImportConditions)),
      l.Perm [("a::X", ⟨none, []⟩), ("a::Y", ⟨none, []⟩), ("a::X", ⟨none, []⟩)] →
      uses env (l.foldl (fun m p => Imports.add m p.1 p.2) []) outer =
        some ["", "use a::\x7bX,Y\x7d;"]) := by
  constructor
  · intro env outer imports gs hsort hloop
    have hpair := importsSortedB_pairwise imports hsort
    obtain ⟨hk, hn⟩ := uses_loop_invariant env outer imports [] gs
      List.Pairwise.nil (by simp) (by simp) hpair hloop
    refine ⟨?_, hn, ?_⟩
    · have hne : gs.Pairwise (fun p q => p.1 ≠ q.1) :=
        hk.imp fun h => keyLtB_ne h
      rw [List.Nodup, List.pairwise_map]
      exact hne
    · unfold uses
      rw [hloop]
  · intro env outer l hl
    rcases l with _ | ⟨u, l⟩
    · have := hl.length_eq; simp at this
    rcases l with _ | ⟨v', l⟩
    · have := hl.length_eq; simp at this
    rcases l with _ | ⟨w, l⟩
    · have := hl.length_eq; simp at this
    rcases l with _ | ⟨y, t⟩
    case cons.cons.cons.nil =>
      have hu : u ∈ [(("a::X" : String), (⟨none, []⟩ : ImportConditions)), ("a::Y", ⟨none, []⟩), ("a::X", ⟨none, []⟩)] :=
        hl.subset (by simp)
      have hv : v' ∈ [(("a::X" : String), (⟨none, []⟩ : ImportConditions)), ("a::Y", ⟨none, []⟩), ("a::X", ⟨none, []⟩)] :=
        hl.subset (by simp)
      have hw : w ∈ [(("a::X" : String), (⟨none, []⟩ : ImportConditions)), ("a::Y", ⟨none, []⟩), ("a::X", ⟨none, []⟩)] :=
        hl.subset (by simp)
      simp only [List.mem_cons, List.not_mem_nil, or_false] at hu hv hw
      rcases hu with rfl | rfl | rfl <;> rcases hv with rfl | rfl | rfl <;>
        rcases hw with rfl | rfl | rfl <;>
        first
          | rfl
          | exact absurd (hl.count_eq ("a::Y", ⟨none, []⟩)) (by decide)
    case cons.cons.cons.cons =>
      have := hl.length_eq
      simp only [List.length_cons, List.length_nil] at this
      omega

/-- C5 witness: a sorted two-namespace request set yields distinct group
keys with sorted symbol lists, and the concrete a::X, a::Y, a::X requests in
a scrambled arrival order produce exactly use a::{X,Y}. -/
theorem uses_groups_sorted_dedup_witness :
    (importsSortedB [("a::X", ImportConditions.mk none []), ("b::Y", ImportConditions.mk none [])] = true ∧
      (([((("a" : String), (none : Option ImportConditions)), ["X"]),
         ((("b" : String), (none : Option ImportConditions)), ["Y"])].map Prod.fst).Nodup ∧
        (∀ p ∈ [((("a" : String), (none : Option ImportConditions)), ["X"]),
                ((("b" : String), (none : Option ImportConditions)), ["Y"])],
          p.2.Pairwise (fun a b => strLtB a b = true)) ∧
        uses envDefault [("a::X", ImportConditions.mk none []), ("b::Y", ImportConditions.mk none [])] none =
          some ([""] ++ uses_render envDefault
            [((("a" : String), (none : Option ImportConditions)), ["X"]),
             ((("b" : String), (none : Option ImportConditions)), ["Y"])]))) ∧
    (([("a::Y", ImportConditions.mk none []), ("a::X", ImportConditions.mk none []),
       ("a::X", ImportConditions.mk none [])] : List (String × ImportConditions)).Perm
        [("a::X", ⟨none, []⟩), ("a::Y", ⟨none, []⟩), ("a::X", ⟨none, []⟩)] ∧
      uses envDefault
          ([("a::Y", ImportConditions.mk none []), ("a::X", ImportConditions.mk none []),
            ("a::X", ImportConditions.mk none [])].foldl (fun m p => Imports.add m p.1 p.2) [])
          none =
        some ["", "use a::\x7bX,Y\x7d;"]) :=
  ⟨⟨rfl,
    uses_groups_sorted_dedup.1 envDefault none
      [("a::X", ImportConditions.mk none []), ("b::Y", ImportConditions.mk none [])]
      [((("a" : String), (none : Option ImportConditions)), ["X"]),
       ((("b" : String), (none : Option ImportConditions)), ["Y"])] rfl rfl⟩,
   ⟨by decide,
    uses_groups_sorted_dedup.2 envDefault none
      [("a::Y", ImportConditions.mk none []), ("a::X", ImportConditions.mk none []),
       ("a::X", ImportConditions.mk none [])] (by decide)⟩⟩

/-- C3 witness: a version equal to the baseline 3.0 yields no guard, and a
present version over an absent baseline yields a guard. -/
theorem version_condition_string_none_iff_witness :
    ((some (⟨3, 0, 0⟩ : Version)) = some ⟨3, 0, 0⟩ ∧
      envBaseline3.min_required_version none = some ⟨3, 0, 0⟩ ∧
      version_condition_string envBaseline3 none (some ⟨3, 0, 0⟩) false 0 = none) ∧
    ((some (⟨1, 0, 0⟩ : Version)) = some ⟨1, 0, 0⟩ ∧
      envDefault.min_required_version none = none ∧
      (version_condition_string envDefault none (some ⟨1, 0, 0⟩) false 0).isSome = true) :=
  ⟨⟨rfl, rfl,
    (version_condition_string_none_iff envBaseline3 none (some ⟨3, 0, 0⟩) false 0).2.2 ⟨3, 0, 0⟩ rfl rfl⟩,
   ⟨rfl, rfl,
    (version_condition_string_none_iff envDefault none (some ⟨1, 0, 0⟩) false 0).2.1 ⟨1, 0, 0⟩ rfl rfl⟩⟩
